import Mathlib

/-!
Verification of the experiment-evaluation engine (winner determination and
learning system).  The engine is a stateless numeric pipeline over per-variant
advertising counters: a metrics deriver, a two-proportion z-test, a winner
selector, and a learning generator.

Modelling conventions.  JavaScript numbers are modelled as exact real numbers
extended with `+Infinity`, `-Infinity` and `NaN` (the type `JsNum` below),
with JavaScript arithmetic and comparison semantics on the non-finite values
(`-0` is identified with `0`).  Values that the engine only ever produces and
consumes as finite reals are modelled directly by `ℝ`.  Impure identifier and
timestamp generation (`generateTestResultId`, `Date.now`, …) produces opaque
id strings that no decision logic reads; ids are therefore elided from the
embedded records.  The human-readable `reason` strings and learning
titles/descriptions are template strings over numeric payloads; they are
embedded as inductive values carrying exactly those payloads.
-/

namespace LaunchTest

/-- A JavaScript number: `NaN`, `+Infinity`, `-Infinity`, or a finite value
modelled as an exact real. -/
inductive JsNum where
  | nan : JsNum
  | posInf : JsNum
  | negInf : JsNum
  | fin : ℝ → JsNum

namespace JsNum

/-- JavaScript subtraction `x - y`. -/
noncomputable def sub : JsNum → JsNum → JsNum
  | nan, _ => nan
  | _, nan => nan
  | posInf, posInf => nan
  | posInf, negInf => posInf
  | posInf, fin _ => posInf
  | negInf, posInf => negInf
  | negInf, negInf => nan
  | negInf, fin _ => negInf
  | fin _, posInf => negInf
  | fin _, negInf => posInf
  | fin x, fin y => fin (x - y)

/-- JavaScript multiplication `x * y`. -/
noncomputable def mul : JsNum → JsNum → JsNum
  | nan, _ => nan
  | _, nan => nan
  | posInf, posInf => posInf
  | posInf, negInf => negInf
  | posInf, fin y => if y = 0 then nan else if 0 < y then posInf else negInf
  | negInf, posInf => negInf
  | negInf, negInf => posInf
  | negInf, fin y => if y = 0 then nan else if 0 < y then negInf else posInf
  | fin x, posInf => if x = 0 then nan else if 0 < x then posInf else negInf
  | fin x, negInf => if x = 0 then nan else if 0 < x then negInf else posInf
  | fin x, fin y => fin (x * y)

/-- JavaScript division `x / y` (with `+0` for the zero denominator;
`-0` is not modelled). -/
noncomputable def div : JsNum → JsNum → JsNum
  | nan, _ => nan
  | _, nan => nan
  | posInf, posInf => nan
  | posInf, negInf => nan
  | posInf, fin y => if 0 ≤ y then posInf else negInf
  | negInf, posInf => nan
  | negInf, negInf => nan
  | negInf, fin y => if 0 ≤ y then negInf else posInf
  | fin _, posInf => fin 0
  | fin _, negInf => fin 0
  | fin x, fin y =>
      if y = 0 then (if x = 0 then nan else if 0 < x then posInf else negInf)
      else fin (x / y)

/-- JavaScript strict comparison `x < y` (`false` whenever `NaN` is involved). -/
noncomputable def ltb : JsNum → JsNum → Bool
  | nan, _ => false
  | _, nan => false
  | posInf, _ => false
  | _, posInf => true
  | negInf, negInf => false
  | negInf, _ => true
  | _, negInf => false
  | fin x, fin y => decide (x < y)

/-- JavaScript comparison `x <= y` (`false` whenever `NaN` is involved). -/
noncomputable def leb : JsNum → JsNum → Bool
  | nan, _ => false
  | _, nan => false
  | _, posInf => true
  | posInf, _ => false
  | negInf, _ => true
  | _, negInf => false
  | fin x, fin y => decide (x ≤ y)

/-- JavaScript truthiness of a number: `0` and `NaN` are falsy. -/
noncomputable def truthy : JsNum → Bool
  | nan => false
  | posInf => true
  | negInf => true
  | fin x => decide (x ≠ 0)

end JsNum

/-- Test type. -/
inductive TestType where
  | ab_test | multivariate | bandit
  deriving DecidableEq

/-- Metric type. -/
inductive MetricType where
  | cvr | ctr | cpa | roas | revenue | cpc
  deriving DecidableEq

/-- One variant's raw observation window.  The source record also carries a
cached `metrics` object, but every engine function recomputes the metrics via
`calculateVariantMetrics` and never reads the cached copy, so it is omitted
here. -/
structure VariantResult where
  variantId : String
  variantName : String
  isControl : Bool
  sampleSize : ℝ
  conversions : ℝ
  clicks : ℝ
  impressions : ℝ
  spend : ℝ
  revenue : ℝ
  deriving Inhabited

/-- Derived variant metrics.  `cpa` can be `+Infinity` (zero conversions), so
it is a `JsNum`; the remaining five are always finite. -/
structure VariantMetrics where
  cvr : ℝ
  ctr : ℝ
  cpa : JsNum
  roas : ℝ
  cpc : ℝ
  cpm : ℝ

/-- Winner decision status. -/
inductive WinnerStatus where
  | winner | loser | tie | insufficient_data
  deriving DecidableEq

/-- The human-readable `reason` strings of a `WinnerDecision`, embedded as the
numeric/string payloads that the source interpolates into its templates:
`"At least 2 variants required for comparison"`,
`"No control variant specified"`,
`"Insufficient sample size: <actual>/<required>"`,
`"<name> outperformed control by <improvement>%"`,
`"Control outperformed all treatments"`, and
`"No statistically significant difference found"`. -/
inductive Reason where
  | atLeastTwoVariantsRequired
  | noControlVariantSpecified
  | insufficientSampleSize (actual required : ℝ)
  | outperformedControl (variantName : String) (improvement : JsNum)
  | controlOutperformedAllTreatments
  | noSignificantDifferenceFound

/-- Winner decision.  `winnerVariantId` and `improvement` are the optional
fields of the source record. -/
structure WinnerDecision where
  status : WinnerStatus
  winnerVariantId : Option String
  improvement : Option JsNum
  confidence : ℝ
  reason : Reason

/-- Result of one control-vs-treatment significance test. -/
structure SignificanceResult where
  isSignificant : Bool
  pValue : ℝ
  confidenceLevel : ℝ
  standardError : ℝ
  zScore : ℝ
  minimumDetectableEffect : ℝ

/-- Conversion rate: `conversions / clicks * 100`, `0` when `clicks = 0`. -/
noncomputable def calculateCVR (conversions clicks : ℝ) : ℝ :=
  if clicks = 0 then 0 else conversions / clicks * 100

/-- Click-through rate: `clicks / impressions * 100`, `0` when
`impressions = 0`. -/
noncomputable def calculateCTR (clicks impressions : ℝ) : ℝ :=
  if impressions = 0 then 0 else clicks / impressions * 100

/-- Cost per acquisition: `spend / conversions`, `+Infinity` when
`conversions = 0`. -/
noncomputable def calculateCPA (spend conversions : ℝ) : JsNum :=
  if conversions = 0 then .posInf else .fin (spend / conversions)

/-- Return on ad spend: `revenue / spend`, `0` when `spend = 0`. -/
noncomputable def calculateROAS (revenue spend : ℝ) : ℝ :=
  if spend = 0 then 0 else revenue / spend

/-- Cost per click: `spend / clicks`, `0` when `clicks = 0`. -/
noncomputable def calculateCPC (spend clicks : ℝ) : ℝ :=
  if clicks = 0 then 0 else spend / clicks

/-- Cost per mille: `spend / impressions * 1000`, `0` when
`impressions = 0`. -/
noncomputable def calculateCPM (spend impressions : ℝ) : ℝ :=
  if impressions = 0 then 0 else spend / impressions * 1000

/-- Assemble the six derived metrics of one variant. -/
noncomputable def calculateVariantMetrics (result : VariantResult) : VariantMetrics :=
  { cvr := calculateCVR result.conversions result.clicks
    ctr := calculateCTR result.clicks result.impressions
    cpa := calculateCPA result.spend result.conversions
    roas := calculateROAS result.revenue result.spend
    cpc := calculateCPC result.spend result.clicks
    cpm := calculateCPM result.spend result.impressions }

/-- Standard error of a percentage rate: `sqrt(p·(1-p)/n)` with `p = rate/100`,
`0` when `sampleSize = 0`. -/
noncomputable def calculateStandardError (rate sampleSize : ℝ) : ℝ :=
  if sampleSize = 0 then 0
  else Real.sqrt ((rate / 100) * (1 - rate / 100) / sampleSize)

/-- Z-score of two percentage rates with per-arm standard errors;
`0` when the pooled standard error is `0`. -/
noncomputable def calculateZScore (rateA rateB seA seB : ℝ) : ℝ :=
  let seDiff := Real.sqrt (seA * seA + seB * seB)
  if seDiff = 0 then 0 else (rateA - rateB) / 100 / seDiff

/-- Two-tailed p-value from a z-score via the Abramowitz–Stegun polynomial
approximation of the standard normal tail. -/
noncomputable def calculatePValue (zScore : ℝ) : ℝ :=
  let absZ := |zScore|
  let t := 1 / (1 + 0.2316419 * absZ)
  let d := 0.3989423 * Real.exp (-absZ * absZ / 2)
  let p := d * t *
    (0.3193815 + t * (-0.3565638 + t * (1.781478 + t * (-1.821256 + t * 1.330274))))
  2 * p

/-- The rate/denominator quadruple `(controlRate, treatmentRate, controlN,
treatmentN)` selected by the metric switch of `testSignificance` (CVR over
clicks, CTR over impressions, everything else falling back to CVR). -/
noncomputable def significanceRates (controlResult treatmentResult : VariantResult)
    (metric : MetricType) : ℝ × ℝ × ℝ × ℝ :=
  let controlMetrics := calculateVariantMetrics controlResult
  let treatmentMetrics := calculateVariantMetrics treatmentResult
  match metric with
  | .cvr => (controlMetrics.cvr, treatmentMetrics.cvr,
      controlResult.clicks, treatmentResult.clicks)
  | .ctr => (controlMetrics.ctr, treatmentMetrics.ctr,
      controlResult.impressions, treatmentResult.impressions)
  | _ => (controlMetrics.cvr, treatmentMetrics.cvr,
      controlResult.clicks, treatmentResult.clicks)

/-- Two-proportion z-test of one treatment against the control. -/
noncomputable def testSignificance (controlResult treatmentResult : VariantResult)
    (metric : MetricType) (confidenceLevel : ℝ) : SignificanceResult :=
  let rates := significanceRates controlResult treatmentResult metric
  let controlRate := rates.1
  let treatmentRate := rates.2.1
  let controlN := rates.2.2.1
  let treatmentN := rates.2.2.2
  let seControl := calculateStandardError controlRate controlN
  let seTreatment := calculateStandardError treatmentRate treatmentN
  let zScore := calculateZScore treatmentRate controlRate seTreatment seControl
  let pValue := calculatePValue zScore
  let criticalZ : ℝ := 1.96
  let isSignificant := decide (pValue < 1 - confidenceLevel)
  let pooledSE := Real.sqrt (seControl * seControl + seTreatment * seTreatment)
  let mde := criticalZ * pooledSE * 100
  { isSignificant := isSignificant
    pValue := pValue
    confidenceLevel := confidenceLevel
    standardError := pooledSE
    zScore := zScore
    minimumDetectableEffect := mde }

/-- Required-sample-size planner: `n = ⌈2·(zAlpha+zBeta)²·p̄(1-p̄)/(p2-p1)²⌉`,
`+Infinity` when `p2 = p1`. -/
noncomputable def calculateRequiredSampleSize (baselineRate minimumDetectableEffect : ℝ)
    (power confidenceLevel : ℝ) : JsNum :=
  let zAlpha : ℝ := if confidenceLevel = 0.95 then 1.96 else 2.576
  let zBeta : ℝ := if power = 0.8 then 0.84 else 1.28
  let p1 := baselineRate / 100
  let p2 := (baselineRate + minimumDetectableEffect) / 100
  let pooledP := (p1 + p2) / 2
  let numerator := 2 * (zAlpha + zBeta) ^ 2 * pooledP * (1 - pooledP)
  let denominator := (p2 - p1) ^ 2
  if denominator = 0 then .posInf else .fin ((⌈numerator / denominator⌉ : ℤ) : ℝ)

/-- Metric switch of `getMetricValue` (the `revenue` case returns the raw
counter; every other case returns the derived metric). -/
noncomputable def getMetricValue (result : VariantResult) (metric : MetricType) : JsNum :=
  let metrics := calculateVariantMetrics result
  match metric with
  | .cvr => .fin metrics.cvr
  | .ctr => .fin metrics.ctr
  | .cpa => metrics.cpa
  | .roas => .fin metrics.roas
  | .cpc => .fin metrics.cpc
  | .revenue => .fin result.revenue

/-- The improvement of a treatment over the control:
`(control - treatment)/control * 100` for the lower-is-better metrics
`cpa`/`cpc`, `(treatment - control)/control * 100` otherwise, in JavaScript
number arithmetic. -/
noncomputable def improvementOf (control treatment : VariantResult)
    (metric : MetricType) : JsNum :=
  let controlMetric := getMetricValue control metric
  let treatmentMetric := getMetricValue treatment metric
  if metric = .cpa ∨ metric = .cpc then
    ((controlMetric.sub treatmentMetric).div controlMetric).mul (.fin 100)
  else
    ((treatmentMetric.sub controlMetric).div controlMetric).mul (.fin 100)

/-- Loop state of the winner-selection pass of `determineWinner`
(`bestTreatment`, `bestImprovement`, `bestConfidence`, `significantWinner`). -/
structure WinnerScan where
  bestTreatment : Option VariantResult
  bestImprovement : JsNum
  bestConfidence : ℝ
  significantWinner : Bool

/-- One iteration of the winner-selection loop of `determineWinner`. -/
noncomputable def scanStep (control : VariantResult) (primaryMetric : MetricType)
    (confidenceLevel : ℝ) (s : WinnerScan) (treatment : VariantResult) : WinnerScan :=
  let significance := testSignificance control treatment primaryMetric confidenceLevel
  let improvement := improvementOf control treatment primaryMetric
  if significance.isSignificant && JsNum.ltb (.fin 0) improvement then
    if JsNum.ltb s.bestImprovement improvement then
      { bestTreatment := some treatment
        bestImprovement := improvement
        bestConfidence := 1 - significance.pValue
        significantWinner := true }
    else s
  else s

/-- The condition of the control-is-better loop of `determineWinner`:
`controlMetric < treatmentMetric` for `cpa`/`cpc`,
`controlMetric > treatmentMetric` otherwise. -/
noncomputable def controlBetterB (control treatment : VariantResult)
    (metric : MetricType) : Bool :=
  let controlMetric := getMetricValue control metric
  let treatmentMetric := getMetricValue treatment metric
  if metric = .cpa ∨ metric = .cpc then JsNum.ltb controlMetric treatmentMetric
  else JsNum.ltb treatmentMetric controlMetric

/-- `variants.reduce((sum, v) => sum + v.sampleSize, 0)`. -/
noncomputable def totalSampleSize (variants : List VariantResult) : ℝ :=
  variants.foldl (fun sum v => sum + v.sampleSize) 0

/-- Initial loop state of `determineWinner`
(`bestTreatment = null`, `bestImprovement = 0`, `bestConfidence = 0`,
`significantWinner = false`). -/
noncomputable def initialScan : WinnerScan :=
  { bestTreatment := none, bestImprovement := .fin 0, bestConfidence := 0,
    significantWinner := false }

/-- The state of the winner-selection loop after iterating over all
treatments. -/
noncomputable def scanResult (control : VariantResult)
    (treatments : List VariantResult) (primaryMetric : MetricType)
    (confidenceLevel : ℝ) : WinnerScan :=
  treatments.foldl (scanStep control primaryMetric confidenceLevel) initialScan

/-- The control-is-better loop of `determineWinner`: the first treatment (in
list order) against which the control is both significant and directionally
better, if any. -/
noncomputable def loserSearch (control : VariantResult)
    (treatments : List VariantResult) (primaryMetric : MetricType)
    (confidenceLevel : ℝ) : Option VariantResult :=
  treatments.find? (fun t =>
    (testSignificance control t primaryMetric confidenceLevel).isSignificant
      && controlBetterB control t primaryMetric)

/-- The part of `determineWinner` that runs after the three terminal guards:
the winner-selection loop over the non-control treatments, then the
control-is-better loop, then the tie fallback. -/
noncomputable def decideAfterGuards (control : VariantResult)
    (treatments : List VariantResult) (primaryMetric : MetricType)
    (confidenceLevel : ℝ) : WinnerDecision :=
  let s := scanResult control treatments primaryMetric confidenceLevel
  match s.significantWinner, s.bestTreatment with
  | true, some bestTreatment =>
      { status := .winner
        winnerVariantId := some bestTreatment.variantId
        improvement := some s.bestImprovement
        confidence := s.bestConfidence
        reason := .outperformedControl bestTreatment.variantName s.bestImprovement }
  | _, _ =>
      match loserSearch control treatments primaryMetric confidenceLevel with
      | some t =>
          { status := .loser
            winnerVariantId := some control.variantId
            improvement := none
            confidence := 1 - (testSignificance control t primaryMetric confidenceLevel).pValue
            reason := .controlOutperformedAllTreatments }
      | none =>
          { status := .tie
            winnerVariantId := none
            improvement := none
            confidence := 0.5
            reason := .noSignificantDifferenceFound }

/-- Winner determination: three terminal guards (variant count, control
presence, minimum total sample size), then `decideAfterGuards` with the first
`isControl`-flagged variant as control and the non-control variants as
treatments. -/
noncomputable def determineWinner (variants : List VariantResult)
    (primaryMetric : MetricType) (confidenceLevel minSampleSize : ℝ) : WinnerDecision :=
  if variants.length < 2 then
    { status := .insufficient_data, winnerVariantId := none, improvement := none,
      confidence := 0, reason := .atLeastTwoVariantsRequired }
  else
    match variants.find? (fun v => v.isControl) with
    | none =>
        { status := .insufficient_data, winnerVariantId := none, improvement := none,
          confidence := 0, reason := .noControlVariantSpecified }
    | some control =>
        if totalSampleSize variants < minSampleSize then
          { status := .insufficient_data, winnerVariantId := none, improvement := none,
            confidence := 0,
            reason := .insufficientSampleSize (totalSampleSize variants) minSampleSize }
        else
          decideAfterGuards control (variants.filter (fun v => !v.isControl))
            primaryMetric confidenceLevel

/-- Impact level of a learning. -/
inductive Impact where
  | high | medium | low
  deriving DecidableEq

/-- A learning, embedded as its numeric/string payloads (ids and the rendered
Japanese title/description template strings are elided; all three learnings
of the source have `type: general` and `actionable: true`). -/
inductive Learning where
  | winnerSummary (variantName : String) (improvement : Option JsNum)
      (impact : Impact) (confidence : ℝ)
  | ctrSpread (bestVariant worstVariant : String) (ctrDifference : ℝ) (impact : Impact)
  | cpaSpread (bestVariant worstVariant : String) (cpaDifferencePercent : JsNum)

/-- The sort relation of `[...variants].sort((a, b) => metricsB.ctr - metricsA.ctr)`
(descending CTR; a comparator value `≤ 0` keeps `a` before `b`). -/
noncomputable def ctrDescLe (a b : VariantResult) : Bool :=
  decide ((calculateVariantMetrics b).ctr ≤ (calculateVariantMetrics a).ctr)

/-- The sort relation of `[...variants].sort((a, b) => metricsA.cpa - metricsB.cpa)`
(ascending CPA; per the ECMAScript sort specification a `NaN` comparator value
— here from `Infinity - Infinity` — is treated as `+0`, i.e. as equal). -/
noncomputable def cpaAscLe (a b : VariantResult) : Bool :=
  match ((calculateVariantMetrics a).cpa).sub ((calculateVariantMetrics b).cpa) with
  | .nan => true
  | .posInf => false
  | .negInf => true
  | .fin v => decide (v ≤ 0)

/-- Learning generation.  On the empty variant list the source reads
`sortedByCTR[0]` (which is `undefined`) and then dereferences
`undefined.conversions` inside `calculateVariantMetrics`, raising a
`TypeError`; this failure is modelled by the `none` result.  Every non-empty
list produces `some` learnings. -/
noncomputable def generateLearnings (variants : List VariantResult)
    (winner : WinnerDecision) : Option (List Learning) :=
  let learnings₁ : List Learning :=
    match winner.status, winner.winnerVariantId with
    | .winner, some id =>
        match variants.find? (fun v => v.variantId = id) with
        | some winningVariant =>
            [ .winnerSummary winningVariant.variantName winner.improvement
                (match winner.improvement with
                 | some imp =>
                     if imp.truthy && JsNum.ltb (.fin 20) imp then .high else .medium
                 | none => .medium)
                winner.confidence ]
        | none => []
    | _, _ => []
  if variants.isEmpty then none
  else
    let sortedByCTR := variants.mergeSort ctrDescLe
    let bestCTR := sortedByCTR.head!
    let worstCTR := sortedByCTR.getLast!
    let ctrDiff := (calculateVariantMetrics bestCTR).ctr - (calculateVariantMetrics worstCTR).ctr
    let learnings₂ : List Learning :=
      if 0.5 < ctrDiff then
        [ .ctrSpread bestCTR.variantName worstCTR.variantName ctrDiff
            (if 1 < ctrDiff then .high else .medium) ]
      else []
    let sortedByCPA := variants.mergeSort cpaAscLe
    let bestCPA := sortedByCPA.head!
    let worstCPA? := (sortedByCPA.filter (fun v =>
        JsNum.ltb (calculateVariantMetrics v).cpa .posInf)).getLast?
    let learnings₃ : List Learning :=
      match worstCPA? with
      | some worstCPA =>
          let cpaDiff := ((((calculateVariantMetrics worstCPA).cpa).sub
              ((calculateVariantMetrics bestCPA).cpa)).div
              ((calculateVariantMetrics bestCPA).cpa)).mul (.fin 100)
          if JsNum.ltb (.fin 30) cpaDiff then
            [ .cpaSpread bestCPA.variantName worstCPA.variantName cpaDiff ]
          else []
      | none => []
    some (learnings₁ ++ learnings₂ ++ learnings₃)

/-- The aggregate test-result record (the impure `id`/`createdAt` fields are
elided). -/
structure TestResult where
  runId : String
  testType : TestType
  startDate : String
  endDate : String
  primaryMetric : MetricType
  variants : List VariantResult
  winner : WinnerDecision
  confidence : ℝ
  sampleSize : ℝ
  learnings : List Learning

/-- Test-result creation: enrich the variants (a recomputation of
`calculateVariantMetrics`, which is a no-op on our records since the cached
metrics field is not stored), decide the winner with the default
`confidenceLevel = 0.95` and `minSampleSize = 100`, and generate learnings.
Propagates the `generateLearnings` failure on the empty variant list. -/
noncomputable def createTestResult (runId : String) (testType : TestType)
    (startDate endDate : String) (primaryMetric : MetricType)
    (variants : List VariantResult) : Option TestResult :=
  let enrichedVariants := variants
  let winner := determineWinner enrichedVariants primaryMetric 0.95 100
  match generateLearnings enrichedVariants winner with
  | none => none
  | some learnings =>
      some { runId := runId
             testType := testType
             startDate := startDate
             endDate := endDate
             primaryMetric := primaryMetric
             variants := enrichedVariants
             winner := winner
             confidence := winner.confidence
             sampleSize := totalSampleSize variants
             learnings := learnings }

/-! ### Guard-chain lemmas for `determineWinner` -/

theorem determineWinner_guard_few (variants : List VariantResult) (m : MetricType)
    (cl mss : ℝ) (h : variants.length < 2) :
    determineWinner variants m cl mss =
      ⟨.insufficient_data, none, none, 0, .atLeastTwoVariantsRequired⟩ := by
  simp only [determineWinner, if_pos h]

theorem determineWinner_guard_noControl (variants : List VariantResult) (m : MetricType)
    (cl mss : ℝ) (h2 : 2 ≤ variants.length)
    (hnc : ∀ v ∈ variants, v.isControl = false) :
    determineWinner variants m cl mss =
      ⟨.insufficient_data, none, none, 0, .noControlVariantSpecified⟩ := by
  have hfind : variants.find? (fun v => v.isControl) = none :=
    List.find?_eq_none.mpr (fun v hv => by simp [hnc v hv])
  simp only [determineWinner, if_neg (not_lt.mpr h2), hfind]

theorem determineWinner_guard_sample (variants : List VariantResult) (m : MetricType)
    (cl mss : ℝ) (h2 : 2 ≤ variants.length) (c : VariantResult)
    (hc : variants.find? (fun v => v.isControl) = some c)
    (hlt : totalSampleSize variants < mss) :
    determineWinner variants m cl mss =
      ⟨.insufficient_data, none, none, 0,
        .insufficientSampleSize (totalSampleSize variants) mss⟩ := by
  simp only [determineWinner, if_neg (not_lt.mpr h2), hc, if_pos hlt]

theorem determineWinner_afterGuards (variants : List VariantResult) (m : MetricType)
    (cl mss : ℝ) (h2 : 2 ≤ variants.length) (c : VariantResult)
    (hc : variants.find? (fun v => v.isControl) = some c)
    (hge : mss ≤ totalSampleSize variants) :
    determineWinner variants m cl mss =
      decideAfterGuards c (variants.filter (fun v => !v.isControl)) m cl := by
  simp only [determineWinner, if_neg (not_lt.mpr h2), hc, if_neg (not_lt.mpr hge)]

/-- **C2.**  `determineWinner` applies its terminal guards as a strict priority
chain before any statistics run: fewer than 2 variants gives
`insufficient_data` with the "at least 2 variants required" reason; otherwise
a list with no `isControl` variant gives `insufficient_data` with the
"no control variant specified" reason; otherwise a total `sampleSize` sum
below `minSampleSize` gives `insufficient_data` with a reason carrying the
actual and required counts — for every variant list, i.e. regardless of the
effect sizes between the variants. -/
theorem determineWinner_guard_chain (variants : List VariantResult) (m : MetricType)
    (cl mss : ℝ) :
    (variants.length < 2 →
      determineWinner variants m cl mss =
        ⟨.insufficient_data, none, none, 0, .atLeastTwoVariantsRequired⟩)
    ∧ (2 ≤ variants.length → (∀ v ∈ variants, v.isControl = false) →
      determineWinner variants m cl mss =
        ⟨.insufficient_data, none, none, 0, .noControlVariantSpecified⟩)
    ∧ (2 ≤ variants.length → (∃ v ∈ variants, v.isControl = true) →
      totalSampleSize variants < mss →
      determineWinner variants m cl mss =
        ⟨.insufficient_data, none, none, 0,
          .insufficientSampleSize (totalSampleSize variants) mss⟩) := by
  refine ⟨fun h => determineWinner_guard_few variants m cl mss h,
    fun h2 hnc => determineWinner_guard_noControl variants m cl mss h2 hnc,
    fun h2 hex hlt => ?_⟩
  have hsome : (variants.find? (fun v => v.isControl)).isSome = true :=
    List.find?_isSome.mpr (by obtain ⟨v, hv, hcv⟩ := hex; exact ⟨v, hv, by simp [hcv]⟩)
  obtain ⟨c, hc⟩ := Option.isSome_iff_exists.mp hsome
  exact determineWinner_guard_sample variants m cl mss h2 c hc hlt

/-- Concrete variant results used to witness the guard chain. -/
noncomputable def guardSolo : VariantResult :=
  ⟨"solo", "Solo", true, 5000, 500, 5000, 100000, 1000, 2000⟩

noncomputable def guardNc1 : VariantResult :=
  ⟨"var1", "Variant 1", false, 5000, 500, 5000, 100000, 1000, 2000⟩

noncomputable def guardNc2 : VariantResult :=
  ⟨"var2", "Variant 2", false, 5000, 700, 5000, 100000, 1000, 2000⟩

noncomputable def guardSm1 : VariantResult :=
  ⟨"control", "Control", true, 30, 5, 30, 600, 10, 20⟩

noncomputable def guardSm2 : VariantResult :=
  ⟨"treatment", "Treatment", false, 30, 25, 30, 600, 10, 20⟩

/-- Witness for C2: the three guards fire on concrete inputs (a singleton
list; a two-variant list with no control; a control/treatment pair with a
huge effect but total sample size 60 < 100). -/
theorem determineWinner_guard_chain_witness :
    determineWinner [guardSolo] .cvr 0.95 100 =
      ⟨.insufficient_data, none, none, 0, .atLeastTwoVariantsRequired⟩
    ∧ determineWinner [guardNc1, guardNc2] .cvr 0.95 100 =
      ⟨.insufficient_data, none, none, 0, .noControlVariantSpecified⟩
    ∧ determineWinner [guardSm1, guardSm2] .cvr 0.95 100 =
      ⟨.insufficient_data, none, none, 0,
        .insufficientSampleSize (totalSampleSize [guardSm1, guardSm2]) 100⟩ := by
  refine ⟨(determineWinner_guard_chain [guardSolo] .cvr 0.95 100).1 (by simp),
    (determineWinner_guard_chain [guardNc1, guardNc2] .cvr 0.95 100).2.1 (by simp)
      (by intro v hv; simp only [List.mem_cons, List.mem_singleton] at hv
          rcases hv with h | h | h
          · rw [h]; rfl
          · rw [h]; rfl
          · cases h),
    (determineWinner_guard_chain [guardSm1, guardSm2] .cvr 0.95 100).2.2 (by simp)
      ⟨guardSm1, by simp, rfl⟩ ?_⟩
  show totalSampleSize [guardSm1, guardSm2] < 100
  simp only [totalSampleSize, List.foldl, guardSm1, guardSm2]
  norm_num

/-- **C6.**  For every control, treatment, metric and caller-supplied
confidence level, `testSignificance` returns
`minimumDetectableEffect = 1.96 · pooledSE · 100` with
`pooledSE = sqrt(seControl² + seTreatment²)` (the `standardError` field): the
MDE is computed from the fixed 95% critical value `1.96` and is independent of
the caller's `confidenceLevel`, while `isSignificant` is still
`pValue < 1 - confidenceLevel`. -/
theorem testSignificance_mde_fixed (c t : VariantResult) (m : MetricType) (cl cl' : ℝ) :
    (testSignificance c t m cl).minimumDetectableEffect
        = 1.96 * (testSignificance c t m cl).standardError * 100
    ∧ (testSignificance c t m cl).standardError
        = Real.sqrt
            ((calculateStandardError (significanceRates c t m).1 (significanceRates c t m).2.2.1) ^ 2
              + (calculateStandardError (significanceRates c t m).2.1 (significanceRates c t m).2.2.2) ^ 2)
    ∧ (testSignificance c t m cl).minimumDetectableEffect
        = (testSignificance c t m cl').minimumDetectableEffect
    ∧ ((testSignificance c t m cl).isSignificant = true
        ↔ (testSignificance c t m cl).pValue < 1 - cl) := by
  refine ⟨rfl, by simp only [testSignificance]; ring_nf, rfl, ?_⟩
  simp only [testSignificance]
  exact decide_eq_true_iff

/-- **C4.**  The six metric derivers are total functions with the specified
zero-denominator sentinels (`0` for CVR/CTR/ROAS/CPC/CPM, `+Infinity` for
CPA), the specified quotients otherwise, and `calculateVariantMetrics`
assembles exactly these six values.  Totality is inherent: each deriver is a
Lean function, so no input can fail. -/
theorem metricDerivers_total :
    (∀ conversions clicks : ℝ,
      (clicks = 0 → calculateCVR conversions clicks = 0)
      ∧ (clicks ≠ 0 → calculateCVR conversions clicks = conversions / clicks * 100))
    ∧ (∀ clicks impressions : ℝ,
      (impressions = 0 → calculateCTR clicks impressions = 0)
      ∧ (impressions ≠ 0 → calculateCTR clicks impressions = clicks / impressions * 100))
    ∧ (∀ spend conversions : ℝ,
      (conversions = 0 → calculateCPA spend conversions = .posInf)
      ∧ (conversions ≠ 0 → calculateCPA spend conversions = .fin (spend / conversions)))
    ∧ (∀ revenue spend : ℝ,
      (spend = 0 → calculateROAS revenue spend = 0)
      ∧ (spend ≠ 0 → calculateROAS revenue spend = revenue / spend))
    ∧ (∀ spend clicks : ℝ,
      (clicks = 0 → calculateCPC spend clicks = 0)
      ∧ (clicks ≠ 0 → calculateCPC spend clicks = spend / clicks))
    ∧ (∀ spend impressions : ℝ,
      (impressions = 0 → calculateCPM spend impressions = 0)
      ∧ (impressions ≠ 0 → calculateCPM spend impressions = spend / impressions * 1000))
    ∧ (∀ r : VariantResult, calculateVariantMetrics r =
        { cvr := calculateCVR r.conversions r.clicks
          ctr := calculateCTR r.clicks r.impressions
          cpa := calculateCPA r.spend r.conversions
          roas := calculateROAS r.revenue r.spend
          cpc := calculateCPC r.spend r.clicks
          cpm := calculateCPM r.spend r.impressions }) :=
  ⟨fun _ k => ⟨fun h => by simp [calculateCVR, h], fun h => by simp [calculateCVR, h]⟩,
   fun _ i => ⟨fun h => by simp [calculateCTR, h], fun h => by simp [calculateCTR, h]⟩,
   fun _ cv => ⟨fun h => by simp [calculateCPA, h], fun h => by simp [calculateCPA, h]⟩,
   fun _ sp => ⟨fun h => by simp [calculateROAS, h], fun h => by simp [calculateROAS, h]⟩,
   fun _ k => ⟨fun h => by simp [calculateCPC, h], fun h => by simp [calculateCPC, h]⟩,
   fun _ i => ⟨fun h => by simp [calculateCPM, h], fun h => by simp [calculateCPM, h]⟩,
   fun _ => rfl⟩

/-- Witness for C4: the spec's anchor values
`cvr(0, 0) = 0`, `cpa(1000, 0) = +Infinity`, `roas(1000, 0) = 0`. -/
theorem metricDerivers_total_witness :
    calculateCVR 0 0 = 0 ∧ calculateCPA 1000 0 = .posInf ∧ calculateROAS 1000 0 = 0 :=
  ⟨(metricDerivers_total.1 0 0).1 rfl,
   (metricDerivers_total.2.2.1 1000 0).1 rfl,
   (metricDerivers_total.2.2.2.1 1000 0).1 rfl⟩

/-! ### The p-value approximation -/

theorem calculatePValue_eq (z : ℝ) :
    calculatePValue z =
      2 * (0.3989423 * Real.exp (-|z| * |z| / 2) * (1 / (1 + 0.2316419 * |z|)) *
        (0.3193815 + (1 / (1 + 0.2316419 * |z|)) *
          (-0.3565638 + (1 / (1 + 0.2316419 * |z|)) *
            (1.781478 + (1 / (1 + 0.2316419 * |z|)) *
              (-1.821256 + (1 / (1 + 0.2316419 * |z|)) * 1.330274))))) := rfl

theorem exp_19208_lb : (6.13 : ℝ) ≤ Real.exp 1.9208 := by
  have hx : (1.12005 : ℝ) ≤ Real.exp 0.12005 := by
    have h := Real.add_one_le_exp (0.12005 : ℝ)
    linarith
  calc (6.13 : ℝ) ≤ 1.12005 ^ 16 := by norm_num
    _ ≤ Real.exp 0.12005 ^ 16 := pow_le_pow_left₀ (by norm_num) hx 16
    _ = Real.exp 1.9208 := by
        rw [← Real.exp_nat_mul]
        norm_num

theorem exp_two_lb : (7.389 : ℝ) ≤ Real.exp 2 := by
  have h := Real.exp_one_gt_d9
  have h2 : Real.exp 2 = Real.exp 1 * Real.exp 1 := by
    rw [← Real.exp_add]; norm_num
  nlinarith [Real.exp_pos 1]

theorem exp_19208_ub : Real.exp 1.9208 ≤ 7.39 := by
  have h2 : Real.exp 1.9208 ≤ Real.exp 2 := Real.exp_le_exp.mpr (by norm_num)
  have h3 : Real.exp 2 = Real.exp 1 * Real.exp 1 := by
    rw [← Real.exp_add]; norm_num
  nlinarith [Real.exp_one_lt_d9, Real.exp_pos 1]

/-- **C7.**  `calculatePValue z` is exactly the two-tailed Abramowitz–Stegun
polynomial approximation `2·d·t·(0.3193815 + t·(-0.3565638 + t·(1.781478 +
t·(-1.821256 + t·1.330274))))` with `t = 1/(1 + 0.2316419·|z|)` and
`d = 0.3989423·exp(-z²/2)`, and it meets the spec's anchors:
`calculatePValue 0` is within `0.1` of `1` and `calculatePValue 1.96` is
within `1e-2` of `0.05`. -/
theorem calculatePValue_formula_anchors :
    (∀ z : ℝ, calculatePValue z =
      2 * (0.3989423 * Real.exp (-(z ^ 2) / 2)) * (1 / (1 + 0.2316419 * |z|)) *
        (0.3193815 + (1 / (1 + 0.2316419 * |z|)) *
          (-0.3565638 + (1 / (1 + 0.2316419 * |z|)) *
            (1.781478 + (1 / (1 + 0.2316419 * |z|)) *
              (-1.821256 + (1 / (1 + 0.2316419 * |z|)) * 1.330274)))))
    ∧ |calculatePValue 0 - 1| ≤ 0.1
    ∧ |calculatePValue 1.96 - 0.05| ≤ 1e-2 := by
  refine ⟨fun z => ?_, ?_, ?_⟩
  · rw [calculatePValue_eq]
    have habs : -|z| * |z| / 2 = -(z ^ 2) / 2 := by
      have h : |z| * |z| = z ^ 2 := by rw [abs_mul_abs_self]; ring
      nlinarith [h]
    rw [habs]; ring
  · rw [calculatePValue_eq]
    rw [show |(0 : ℝ)| = 0 from abs_zero]
    rw [show -(0 : ℝ) * 0 / 2 = 0 by norm_num, Real.exp_zero]
    rw [abs_le]
    constructor <;> norm_num
  · rw [calculatePValue_eq]
    rw [show |(1.96 : ℝ)| = 1.96 from abs_of_pos (by norm_num)]
    rw [show -(1.96 : ℝ) * 1.96 / 2 = -1.9208 by norm_num, Real.exp_neg]
    have hEpos : 0 < (Real.exp 1.9208)⁻¹ := inv_pos.mpr (Real.exp_pos _)
    have hprod : Real.exp 1.9208 * (Real.exp 1.9208)⁻¹ = 1 :=
      mul_inv_cancel₀ (ne_of_gt (Real.exp_pos _))
    rw [abs_le]
    constructor <;> nlinarith [exp_19208_lb, exp_19208_ub, hEpos, hprod]

/-- Upper bound of the Abramowitz–Stegun tail polynomial on `[0, 0.41845]`. -/
theorem astPoly_ub (t : ℝ) (h0 : 0 ≤ t) (h1 : t ≤ 0.41845) :
    0.3193815 + t * (-0.3565638 + t * (1.781478 + t * (-1.821256 + t * 1.330274)))
      ≤ 0.6721 := by
  have h2 : t * t ≤ 0.17511 := by nlinarith
  have h4 : t * t * (t * t) ≤ 0.0306636 := by nlinarith
  have h3 : 0 ≤ t * t * t := by positivity
  nlinarith

/-- The Abramowitz–Stegun tail polynomial is nonnegative on `[0, 0.41845]`. -/
theorem astPoly_nonneg (t : ℝ) (h0 : 0 ≤ t) (h1 : t ≤ 0.41845) :
    0 ≤ 0.3193815 + t * (-0.3565638 + t * (1.781478 + t * (-1.821256 + t * 1.330274))) := by
  have h2 : 0 ≤ t * t := by positivity
  have h4 : 0 ≤ t * t * (t * t) := by positivity
  have h3 : t * t * t ≤ 0.0733 := by nlinarith
  nlinarith

/-- Lower bound of the Abramowitz–Stegun tail polynomial on `[0.9269, 0.931]`. -/
theorem astPoly_lb (t : ℝ) (h0 : 0.9269 ≤ t) (h1 : t ≤ 0.931) :
    1 ≤ 0.3193815 + t * (-0.3565638 + t * (1.781478 + t * (-1.821256 + t * 1.330274))) := by
  have h2lo : 0.859 ≤ t * t := by nlinarith
  have h2hi : t * t ≤ 0.866761 := by nlinarith
  have h3hi : t * t * t ≤ 0.80696 := by nlinarith
  have h4lo : 0.738 ≤ t * t * (t * t) := by nlinarith
  nlinarith

/-- For z-scores of at least 6 the approximated two-tailed p-value is below
the 5% threshold. -/
theorem calculatePValue_lt_of_six_le (z : ℝ) (hz : 6 ≤ z) :
    calculatePValue z < 0.05 := by
  rw [calculatePValue_eq, abs_of_nonneg (by linarith : (0 : ℝ) ≤ z)]
  have hE2 : Real.exp (-2 : ℝ) ≤ 0.1354 := by
    rw [Real.exp_neg]
    have hp : Real.exp 2 * (Real.exp 2)⁻¹ = 1 :=
      mul_inv_cancel₀ (ne_of_gt (Real.exp_pos _))
    have h0 : 0 < (Real.exp 2)⁻¹ := inv_pos.mpr (Real.exp_pos _)
    nlinarith [exp_two_lb]
  have hEmono : Real.exp (-z * z / 2) ≤ Real.exp (-2 : ℝ) :=
    Real.exp_le_exp.mpr (by nlinarith)
  obtain ⟨E, hE_def⟩ : ∃ E, E = Real.exp (-z * z / 2) := ⟨_, rfl⟩
  have hE0 : 0 < E := hE_def ▸ Real.exp_pos _
  have hE : E ≤ 0.1354 := hE_def ▸ le_trans hEmono hE2
  obtain ⟨t, ht_def⟩ : ∃ t, t = 1 / (1 + 0.2316419 * z) := ⟨_, rfl⟩
  have hden : (2.3898514 : ℝ) ≤ 1 + 0.2316419 * z := by linarith
  have ht0 : 0 < t := by rw [ht_def]; positivity
  have ht : t ≤ 0.41845 := by
    rw [ht_def, div_le_iff₀ (by linarith : (0 : ℝ) < 1 + 0.2316419 * z)]
    nlinarith
  rw [← hE_def, ← ht_def]
  have hpoly_ub := astPoly_ub t ht0.le ht
  have hpoly_lb := astPoly_nonneg t ht0.le ht
  have hd : 0.3989423 * E ≤ 0.3989423 * 0.1354 := by nlinarith
  have hstep1 : 0.3989423 * E * t ≤ 0.3989423 * 0.1354 * 0.41845 :=
    mul_le_mul hd ht ht0.le (by norm_num)
  have hstep2 : 0.3989423 * E * t *
      (0.3193815 + t * (-0.3565638 + t * (1.781478 + t * (-1.821256 + t * 1.330274)))) ≤
      0.3989423 * 0.1354 * 0.41845 * 0.6721 :=
    mul_le_mul hstep1 hpoly_ub hpoly_lb (by norm_num)
  nlinarith [hstep2]

/-- For z-scores between 0.32 and 0.34 the approximated two-tailed p-value
stays above the 5% threshold. -/
theorem calculatePValue_gt_of_center (z : ℝ) (h0 : 0.32 ≤ z) (h1 : z ≤ 0.34) :
    0.05 < calculatePValue z := by
  rw [calculatePValue_eq, abs_of_nonneg (by linarith : (0 : ℝ) ≤ z)]
  have hE_lo' : 0.9422 ≤ Real.exp (-z * z / 2) := by
    have h := Real.add_one_le_exp (-z * z / 2)
    nlinarith
  obtain ⟨E, hE_def⟩ : ∃ E, E = Real.exp (-z * z / 2) := ⟨_, rfl⟩
  have hE0 : 0 < E := hE_def ▸ Real.exp_pos _
  have hE_lo : 0.9422 ≤ E := hE_def ▸ hE_lo'
  obtain ⟨t, ht_def⟩ : ∃ t, t = 1 / (1 + 0.2316419 * z) := ⟨_, rfl⟩
  have hden0 : (0 : ℝ) < 1 + 0.2316419 * z := by linarith
  have ht0 : 0 < t := by rw [ht_def]; positivity
  have ht_hi : t ≤ 0.931 := by
    rw [ht_def, div_le_iff₀ hden0]
    nlinarith
  have ht_lo : 0.9269 ≤ t := by
    rw [ht_def, le_div_iff₀ hden0]
    nlinarith
  rw [← hE_def, ← ht_def]
  have hpoly_lb := astPoly_lb t ht_lo ht_hi
  have hd_lo : 0.3989423 * 0.9422 ≤ 0.3989423 * E := by nlinarith
  have hstep1 : 0.3989423 * 0.9422 * 0.9269 ≤ 0.3989423 * E * t :=
    mul_le_mul hd_lo ht_lo (by norm_num) (by positivity)
  have hstep2 : 0.3989423 * 0.9422 * 0.9269 * 1 ≤ 0.3989423 * E * t *
      (0.3193815 + t * (-0.3565638 + t * (1.781478 + t * (-1.821256 + t * 1.330274)))) :=
    mul_le_mul hstep1 hpoly_lb (by norm_num) (by positivity)
  nlinarith [hstep2]

/-! ### JsNum comparison facts -/

namespace JsNum

theorem ltb_pos_cases {i : JsNum} (h : ltb (.fin 0) i = true) :
    i = .posInf ∨ ∃ x : ℝ, i = .fin x ∧ 0 < x := by
  cases i with
  | nan => simp [ltb] at h
  | posInf => exact Or.inl rfl
  | negInf => simp [ltb] at h
  | fin x => exact Or.inr ⟨x, rfl, by simpa [ltb] using h⟩

theorem leb_self_of_pos {i : JsNum} (h : ltb (.fin 0) i = true) : leb i i = true := by
  rcases ltb_pos_cases h with rfl | ⟨x, rfl, hx⟩ <;> simp [leb]

theorem leb_of_not_ltb {b i : JsNum}
    (hb : b = .fin 0 ∨ ltb (.fin 0) b = true)
    (hi : ltb (.fin 0) i = true)
    (h : ltb b i = false) : leb i b = true := by
  rcases hb with rfl | hb
  · rw [h] at hi; exact Bool.noConfusion hi
  · rcases ltb_pos_cases hb with rfl | ⟨y, rfl, hy⟩
    · rcases ltb_pos_cases hi with rfl | ⟨x, rfl, hx⟩ <;> simp [leb]
    · rcases ltb_pos_cases hi with rfl | ⟨x, rfl, hx⟩
      · simp [ltb] at h
      · simp only [ltb, decide_eq_false_iff_not, not_lt] at h
        simpa [leb] using h

theorem leb_trans_ltb {b i j : JsNum}
    (hb : b = .fin 0 ∨ ltb (.fin 0) b = true)
    (hj : ltb (.fin 0) j = true)
    (hji : leb j b = true)
    (hbi : ltb b i = true) : leb j i = true := by
  rcases hb with rfl | hb
  · rcases ltb_pos_cases hj with rfl | ⟨x, rfl, hx⟩
    · simp [leb] at hji
    · simp only [leb, decide_eq_true_eq] at hji
      linarith
  · rcases ltb_pos_cases hb with rfl | ⟨y, rfl, hy⟩
    · cases i <;> simp [ltb] at hbi
    · cases i with
      | nan => simp [ltb] at hbi
      | posInf => rcases ltb_pos_cases hj with rfl | ⟨x, rfl, hx⟩ <;> simp [leb]
      | negInf => simp [ltb] at hbi
      | fin w =>
          simp only [ltb, decide_eq_true_eq] at hbi
          rcases ltb_pos_cases hj with rfl | ⟨x, rfl, hx⟩
          · simp [leb] at hji
          · simp only [leb, decide_eq_true_eq] at hji ⊢
            linarith

end JsNum

/-! ### The winner-selection loop -/

/-- A treatment qualifies as a winner candidate: statistically significant
against the control and with positive improvement. -/
def Qualifies (control : VariantResult) (metric : MetricType) (cl : ℝ)
    (t : VariantResult) : Prop :=
  (testSignificance control t metric cl).isSignificant = true
  ∧ JsNum.ltb (.fin 0) (improvementOf control t metric) = true

/-- The control beats a treatment: statistically significant and the control
metric is directionally better (strictly smaller for `cpa`/`cpc`, strictly
larger otherwise). -/
def ControlBeats (control : VariantResult) (metric : MetricType) (cl : ℝ)
    (t : VariantResult) : Prop :=
  (testSignificance control t metric cl).isSignificant = true
  ∧ controlBetterB control t metric = true

/-- Invariant of the winner-selection loop of `determineWinner` over the
processed prefix of the treatment list. -/
def scanInv (c : VariantResult) (m : MetricType) (cl : ℝ)
    (processed : List VariantResult) (s : WinnerScan) : Prop :=
  (s.significantWinner = false →
    s = initialScan ∧ ∀ t ∈ processed, ¬ Qualifies c m cl t)
  ∧ (s.significantWinner = true →
    ∃ t ∈ processed, Qualifies c m cl t
      ∧ s.bestTreatment = some t
      ∧ s.bestImprovement = improvementOf c t m
      ∧ s.bestConfidence = 1 - (testSignificance c t m cl).pValue
      ∧ ∀ u ∈ processed, Qualifies c m cl u →
          JsNum.leb (improvementOf c u m) (improvementOf c t m) = true)

theorem scanStep_neg (c : VariantResult) (m : MetricType) (cl : ℝ)
    (s : WinnerScan) (t : VariantResult)
    (hc : ((testSignificance c t m cl).isSignificant
      && JsNum.ltb (.fin 0) (improvementOf c t m)) = false) :
    scanStep c m cl s t = s := by
  simp [scanStep, hc]

theorem scanStep_keep (c : VariantResult) (m : MetricType) (cl : ℝ)
    (s : WinnerScan) (t : VariantResult)
    (hc : ((testSignificance c t m cl).isSignificant
      && JsNum.ltb (.fin 0) (improvementOf c t m)) = true)
    (hlt : JsNum.ltb s.bestImprovement (improvementOf c t m) = false) :
    scanStep c m cl s t = s := by
  simp [scanStep, hc, hlt]

theorem scanStep_update (c : VariantResult) (m : MetricType) (cl : ℝ)
    (s : WinnerScan) (t : VariantResult)
    (hc : ((testSignificance c t m cl).isSignificant
      && JsNum.ltb (.fin 0) (improvementOf c t m)) = true)
    (hlt : JsNum.ltb s.bestImprovement (improvementOf c t m) = true) :
    scanStep c m cl s t =
      { bestTreatment := some t
        bestImprovement := improvementOf c t m
        bestConfidence := 1 - (testSignificance c t m cl).pValue
        significantWinner := true } := by
  simp [scanStep, hc, hlt]

theorem scanStep_inv (c : VariantResult) (m : MetricType) (cl : ℝ)
    (processed : List VariantResult) (s : WinnerScan)
    (h : scanInv c m cl processed s) (t : VariantResult) :
    scanInv c m cl (processed ++ [t]) (scanStep c m cl s t) := by
  rcases h with ⟨hF, hT⟩
  rcases Bool.eq_false_or_eq_true ((testSignificance c t m cl).isSignificant
      && JsNum.ltb (.fin 0) (improvementOf c t m)) with hc | hc
  case inr =>
    rw [scanStep_neg c m cl s t hc]
    have hnq : ¬ Qualifies c m cl t := by
      rintro ⟨h1, h2⟩
      rw [h1, h2] at hc
      simp at hc
    refine ⟨fun hf => ?_, fun ht' => ?_⟩
    · obtain ⟨hs, hall⟩ := hF hf
      refine ⟨hs, fun u hu => ?_⟩
      rcases List.mem_append.mp hu with hu | hu
      · exact hall u hu
      · rw [List.mem_singleton] at hu; subst hu; exact hnq
    · obtain ⟨t₀, ht₀mem, hq, hbt, hbi, hbc, hmax⟩ := hT ht'
      refine ⟨t₀, List.mem_append_left _ ht₀mem, hq, hbt, hbi, hbc, fun u hu hqu => ?_⟩
      rcases List.mem_append.mp hu with hu | hu
      · exact hmax u hu hqu
      · rw [List.mem_singleton] at hu; subst hu; exact absurd hqu hnq
  case inl =>
    have hconj : (testSignificance c t m cl).isSignificant = true
        ∧ JsNum.ltb (.fin 0) (improvementOf c t m) = true := by
      simpa [Bool.and_eq_true] using hc
    have hsig := hconj.1
    have hpos := hconj.2
    have hqt : Qualifies c m cl t := ⟨hsig, hpos⟩
    rcases Bool.eq_false_or_eq_true
        (JsNum.ltb s.bestImprovement (improvementOf c t m)) with hlt' | hlt
    case inl =>
      rw [scanStep_update c m cl s t hc hlt']
      refine ⟨fun hf => Bool.noConfusion hf, fun _ =>
        ⟨t, List.mem_append_right _ (List.mem_singleton_self t), hqt, rfl, rfl, rfl,
          fun u hu hqu => ?_⟩⟩
      rcases List.mem_append.mp hu with hu | hu
      · rcases Bool.eq_false_or_eq_true s.significantWinner with ht' | hf
        · obtain ⟨t₀, ht₀mem, hq, hbt, hbi, hbc, hmax⟩ := hT ht'
          have hub : JsNum.leb (improvementOf c u m) s.bestImprovement = true := by
            rw [hbi]; exact hmax u hu hqu
          have hb : s.bestImprovement = .fin 0
              ∨ JsNum.ltb (.fin 0) s.bestImprovement = true :=
            Or.inr (by rw [hbi]; exact hq.2)
          exact JsNum.leb_trans_ltb hb hqu.2 hub hlt'
        · obtain ⟨_, hall⟩ := hF hf
          exact absurd hqu (hall u hu)
      · rw [List.mem_singleton] at hu; subst hu
        exact JsNum.leb_self_of_pos hpos
    case inr =>
      rw [scanStep_keep c m cl s t hc hlt]
      rcases Bool.eq_false_or_eq_true s.significantWinner with ht' | hf
      · obtain ⟨t₀, ht₀mem, hq, hbt, hbi, hbc, hmax⟩ := hT ht'
        refine ⟨fun hf => by rw [hf] at ht'; exact Bool.noConfusion ht', fun _ =>
          ⟨t₀, List.mem_append_left _ ht₀mem, hq, hbt, hbi, hbc, fun u hu hqu => ?_⟩⟩
        rcases List.mem_append.mp hu with hu | hu
        · exact hmax u hu hqu
        · rw [List.mem_singleton] at hu; subst hu
          have hb : s.bestImprovement = .fin 0
              ∨ JsNum.ltb (.fin 0) s.bestImprovement = true :=
            Or.inr (by rw [hbi]; exact hq.2)
          have hle := JsNum.leb_of_not_ltb hb hpos hlt
          rwa [hbi] at hle
      · obtain ⟨hs, _⟩ := hF hf
        have hzero : JsNum.ltb (.fin 0) (improvementOf c t m) = false := by
          rw [hs] at hlt
          exact hlt
        rw [hzero] at hpos
        exact Bool.noConfusion hpos

theorem scanInv_foldl (c : VariantResult) (m : MetricType) (cl : ℝ)
    (l : List VariantResult) : ∀ (processed : List VariantResult) (s : WinnerScan),
    scanInv c m cl processed s →
    scanInv c m cl (processed ++ l) (l.foldl (scanStep c m cl) s) := by
  induction l with
  | nil => intro p s h; simpa using h
  | cons t l ih =>
      intro p s h
      have h1 := scanStep_inv c m cl p s h t
      have h2 := ih (p ++ [t]) _ h1
      simpa using h2

theorem scanInv_initial (c : VariantResult) (m : MetricType) (cl : ℝ) :
    scanInv c m cl [] initialScan :=
  ⟨fun _ => ⟨rfl, by simp⟩, fun h => Bool.noConfusion h⟩

theorem scanResult_inv (c : VariantResult) (ts : List VariantResult)
    (m : MetricType) (cl : ℝ) :
    scanInv c m cl ts (scanResult c ts m cl) := by
  have h := scanInv_foldl c m cl ts [] initialScan (scanInv_initial c m cl)
  simpa [scanResult] using h

theorem decideAfterGuards_eq_winner (c : VariantResult) (ts : List VariantResult)
    (m : MetricType) (cl : ℝ) (t : VariantResult)
    (hf : (scanResult c ts m cl).significantWinner = true)
    (hbt : (scanResult c ts m cl).bestTreatment = some t) :
    decideAfterGuards c ts m cl =
      { status := .winner
        winnerVariantId := some t.variantId
        improvement := some (scanResult c ts m cl).bestImprovement
        confidence := (scanResult c ts m cl).bestConfidence
        reason := .outperformedControl t.variantName
          (scanResult c ts m cl).bestImprovement } := by
  simp only [decideAfterGuards, hf, hbt]

theorem decideAfterGuards_eq_second (c : VariantResult) (ts : List VariantResult)
    (m : MetricType) (cl : ℝ)
    (hf : (scanResult c ts m cl).significantWinner = false) :
    decideAfterGuards c ts m cl =
      (match loserSearch c ts m cl with
       | some t =>
          { status := .loser
            winnerVariantId := some c.variantId
            improvement := none
            confidence := 1 - (testSignificance c t m cl).pValue
            reason := .controlOutperformedAllTreatments }
       | none =>
          { status := .tie
            winnerVariantId := none
            improvement := none
            confidence := 0.5
            reason := .noSignificantDifferenceFound }) := by
  simp only [decideAfterGuards, hf]

theorem scanResult_flag_false (c : VariantResult) (ts : List VariantResult)
    (m : MetricType) (cl : ℝ) (hno : ∀ t ∈ ts, ¬ Qualifies c m cl t) :
    (scanResult c ts m cl).significantWinner = false := by
  rcases Bool.eq_false_or_eq_true (scanResult c ts m cl).significantWinner with ht | hf
  · obtain ⟨t, htmem, hqt, _⟩ := (scanResult_inv c ts m cl).2 ht
    exact absurd hqt (hno t htmem)
  · exact hf

theorem decideAfterGuards_winner_spec (c : VariantResult) (ts : List VariantResult)
    (m : MetricType) (cl : ℝ) (hq : ∃ t ∈ ts, Qualifies c m cl t) :
    ∃ t ∈ ts, Qualifies c m cl t
      ∧ decideAfterGuards c ts m cl =
          { status := .winner
            winnerVariantId := some t.variantId
            improvement := some (improvementOf c t m)
            confidence := 1 - (testSignificance c t m cl).pValue
            reason := .outperformedControl t.variantName (improvementOf c t m) }
      ∧ ∀ u ∈ ts, Qualifies c m cl u →
          JsNum.leb (improvementOf c u m) (improvementOf c t m) = true := by
  have hflag : (scanResult c ts m cl).significantWinner = true := by
    rcases Bool.eq_false_or_eq_true (scanResult c ts m cl).significantWinner with ht | hf
    · exact ht
    · obtain ⟨_, hall⟩ := (scanResult_inv c ts m cl).1 hf
      obtain ⟨t, htmem, hqt⟩ := hq
      exact absurd hqt (hall t htmem)
  obtain ⟨t, htmem, hqt, hbt, hbi, hbc, hmax⟩ := (scanResult_inv c ts m cl).2 hflag
  refine ⟨t, htmem, hqt, ?_, hmax⟩
  rw [decideAfterGuards_eq_winner c ts m cl t hflag hbt, hbi, hbc]

theorem decideAfterGuards_loser_spec (c : VariantResult) (ts : List VariantResult)
    (m : MetricType) (cl : ℝ)
    (hno : ∀ t ∈ ts, ¬ Qualifies c m cl t)
    (hl : ∃ t ∈ ts, ControlBeats c m cl t) :
    ∃ t ∈ ts, ControlBeats c m cl t
      ∧ decideAfterGuards c ts m cl =
          { status := .loser
            winnerVariantId := some c.variantId
            improvement := none
            confidence := 1 - (testSignificance c t m cl).pValue
            reason := .controlOutperformedAllTreatments } := by
  have hsome : (loserSearch c ts m cl).isSome = true := by
    obtain ⟨t, htmem, hb1, hb2⟩ := hl
    exact List.find?_isSome.mpr ⟨t, htmem, by rw [hb1, hb2]; rfl⟩
  obtain ⟨t₀, hfind⟩ := Option.isSome_iff_exists.mp hsome
  have ht₀mem : t₀ ∈ ts := List.mem_of_find?_eq_some hfind
  have ht₀p := List.find?_some hfind
  have hcb : ControlBeats c m cl t₀ := by
    constructor
    · exact (Bool.and_eq_true _ _ ▸ ht₀p).1
    · exact (Bool.and_eq_true _ _ ▸ ht₀p).2
  refine ⟨t₀, ht₀mem, hcb, ?_⟩
  rw [decideAfterGuards_eq_second c ts m cl (scanResult_flag_false c ts m cl hno), hfind]

theorem decideAfterGuards_tie (c : VariantResult) (ts : List VariantResult)
    (m : MetricType) (cl : ℝ)
    (hno : ∀ t ∈ ts, ¬ Qualifies c m cl t)
    (hnb : ∀ t ∈ ts, ¬ ControlBeats c m cl t) :
    decideAfterGuards c ts m cl =
      { status := .tie, winnerVariantId := none, improvement := none,
        confidence := 0.5, reason := .noSignificantDifferenceFound } := by
  have hfind : loserSearch c ts m cl = none := by
    refine List.find?_eq_none.mpr (fun t htmem hp => ?_)
    have := Bool.and_eq_true _ _ ▸ hp
    exact hnb t htmem ⟨this.1, this.2⟩
  rw [decideAfterGuards_eq_second c ts m cl (scanResult_flag_false c ts m cl hno), hfind]

theorem decideAfterGuards_winner_iff (c : VariantResult) (ts : List VariantResult)
    (m : MetricType) (cl : ℝ) :
    (decideAfterGuards c ts m cl).status = .winner ↔ ∃ t ∈ ts, Qualifies c m cl t := by
  constructor
  · intro h
    by_contra hno
    push_neg at hno
    rw [decideAfterGuards_eq_second c ts m cl (scanResult_flag_false c ts m cl hno)] at h
    cases hls : loserSearch c ts m cl with
    | some t => rw [hls] at h; exact WinnerStatus.noConfusion h
    | none => rw [hls] at h; exact WinnerStatus.noConfusion h
  · intro hq
    obtain ⟨t, _, _, heq, _⟩ := decideAfterGuards_winner_spec c ts m cl hq
    rw [heq]

/-- **C1.**  After the guards pass (with `c` the control found in the list),
`determineWinner` returns status `winner` iff some non-control treatment is
both statistically significant against the control and has positive
improvement (`Qualifies`, where the improvement is
`(control − treatment)/control · 100` for `cpa`/`cpc` and
`(treatment − control)/control · 100` otherwise, per `improvementOf`); in
that case the returned decision names a qualifying treatment whose
improvement is at least that of every qualifying treatment, stores that
improvement, and has `confidence = 1 − pValue` of that treatment's
comparison. -/
theorem determineWinner_winner_char (variants : List VariantResult) (m : MetricType)
    (cl mss : ℝ) (h2 : 2 ≤ variants.length) (c : VariantResult)
    (hc : variants.find? (fun v => v.isControl) = some c)
    (hss : mss ≤ totalSampleSize variants) :
    ((determineWinner variants m cl mss).status = .winner
      ↔ ∃ t ∈ variants.filter (fun v => !v.isControl), Qualifies c m cl t)
    ∧ ((∃ t ∈ variants.filter (fun v => !v.isControl), Qualifies c m cl t) →
        ∃ t ∈ variants.filter (fun v => !v.isControl), Qualifies c m cl t
          ∧ determineWinner variants m cl mss =
              { status := .winner
                winnerVariantId := some t.variantId
                improvement := some (improvementOf c t m)
                confidence := 1 - (testSignificance c t m cl).pValue
                reason := .outperformedControl t.variantName (improvementOf c t m) }
          ∧ ∀ u ∈ variants.filter (fun v => !v.isControl), Qualifies c m cl u →
              JsNum.leb (improvementOf c u m) (improvementOf c t m) = true) := by
  rw [determineWinner_afterGuards variants m cl mss h2 c hc hss]
  exact ⟨decideAfterGuards_winner_iff c _ m cl,
    decideAfterGuards_winner_spec c _ m cl⟩

/-- **C3.**  After the guards pass and when no treatment qualifies as a
winner, `determineWinner` returns status `loser` — with
`winnerVariantId` the control's id and `confidence = 1 − pValue` of the
comparison against a treatment the control beats — iff the control is
statistically significantly better than at least one treatment under the
directionality rule (`ControlBeats`: control metric strictly smaller for
`cpa`/`cpc`, strictly larger otherwise); in every remaining case it returns
status `tie` with `confidence = 0.5` and the
"no statistically significant difference found" reason. -/
theorem determineWinner_loser_tie_char (variants : List VariantResult) (m : MetricType)
    (cl mss : ℝ) (h2 : 2 ≤ variants.length) (c : VariantResult)
    (hc : variants.find? (fun v => v.isControl) = some c)
    (hss : mss ≤ totalSampleSize variants)
    (hnq : ∀ t ∈ variants.filter (fun v => !v.isControl), ¬ Qualifies c m cl t) :
    ((determineWinner variants m cl mss).status = .loser
      ↔ ∃ t ∈ variants.filter (fun v => !v.isControl), ControlBeats c m cl t)
    ∧ ((∃ t ∈ variants.filter (fun v => !v.isControl), ControlBeats c m cl t) →
        ∃ t ∈ variants.filter (fun v => !v.isControl), ControlBeats c m cl t
          ∧ determineWinner variants m cl mss =
              { status := .loser
                winnerVariantId := some c.variantId
                improvement := none
                confidence := 1 - (testSignificance c t m cl).pValue
                reason := .controlOutperformedAllTreatments })
    ∧ ((∀ t ∈ variants.filter (fun v => !v.isControl), ¬ ControlBeats c m cl t) →
        determineWinner variants m cl mss =
          { status := .tie, winnerVariantId := none, improvement := none,
            confidence := 0.5, reason := .noSignificantDifferenceFound }) := by
  rw [determineWinner_afterGuards variants m cl mss h2 c hc hss]
  refine ⟨?_, fun hl => decideAfterGuards_loser_spec c _ m cl hnq hl,
    fun hnb => decideAfterGuards_tie c _ m cl hnq hnb⟩
  constructor
  · intro h
    by_contra hnb
    push_neg at hnb
    rw [decideAfterGuards_tie c _ m cl hnq hnb] at h
    exact WinnerStatus.noConfusion h
  · intro hl
    obtain ⟨t, _, _, heq⟩ := decideAfterGuards_loser_spec c _ m cl hnq hl
    rw [heq]

/-! ### Definitional projections of `testSignificance` and scenario evaluation -/

theorem testSignificance_isSignificant_eq (c t : VariantResult) (m : MetricType)
    (cl : ℝ) :
    (testSignificance c t m cl).isSignificant
      = decide ((testSignificance c t m cl).pValue < 1 - cl) := rfl

theorem testSignificance_pValue_eq (c t : VariantResult) (m : MetricType) (cl : ℝ) :
    (testSignificance c t m cl).pValue
      = calculatePValue (testSignificance c t m cl).zScore := rfl

theorem testSignificance_zScore_cvr (c t : VariantResult) (cl : ℝ) :
    (testSignificance c t .cvr cl).zScore =
      calculateZScore (calculateCVR t.conversions t.clicks)
        (calculateCVR c.conversions c.clicks)
        (calculateStandardError (calculateCVR t.conversions t.clicks) t.clicks)
        (calculateStandardError (calculateCVR c.conversions c.clicks) c.clicks) := rfl

theorem testSignificance_zScore_cpa (c t : VariantResult) (cl : ℝ) :
    (testSignificance c t .cpa cl).zScore =
      calculateZScore (calculateCVR t.conversions t.clicks)
        (calculateCVR c.conversions c.clicks)
        (calculateStandardError (calculateCVR t.conversions t.clicks) t.clicks)
        (calculateStandardError (calculateCVR c.conversions c.clicks) c.clicks) := rfl

theorem calculateCVR_val (conv clk target : ℝ) (hclk : clk ≠ 0)
    (h : conv / clk * 100 = target) : calculateCVR conv clk = target := by
  rw [calculateCVR, if_neg hclk, h]

theorem calculateStandardError_val (rate n arg : ℝ) (hn : n ≠ 0)
    (h : rate / 100 * (1 - rate / 100) / n = arg) :
    calculateStandardError rate n = Real.sqrt arg := by
  rw [calculateStandardError, if_neg hn, h]

theorem calculateZScore_sqrt (rateA rateB a b num s : ℝ) (ha : 0 ≤ a) (hb : 0 ≤ b)
    (hs : a + b = s) (hspos : 0 < s) (hnum : (rateA - rateB) / 100 = num) :
    calculateZScore rateA rateB (Real.sqrt a) (Real.sqrt b) = num / Real.sqrt s := by
  simp only [calculateZScore]
  rw [Real.mul_self_sqrt ha, Real.mul_self_sqrt hb, hs,
    if_neg (Real.sqrt_pos.mpr hspos).ne', hnum]

/-- The z-score of the 500/5000 vs 700/5000 CVR comparison. -/
theorem zWin_eq (c t : VariantResult)
    (hc1 : c.conversions = 500) (hc2 : c.clicks = 5000)
    (ht1 : t.conversions = 700) (ht2 : t.clicks = 5000) :
    calculateZScore (calculateCVR t.conversions t.clicks)
      (calculateCVR c.conversions c.clicks)
      (calculateStandardError (calculateCVR t.conversions t.clicks) t.clicks)
      (calculateStandardError (calculateCVR c.conversions c.clicks) c.clicks)
      = 0.04 / Real.sqrt 0.00004208 := by
  rw [hc1, hc2, ht1, ht2]
  rw [calculateCVR_val 700 5000 14 (by norm_num) (by norm_num),
    calculateCVR_val 500 5000 10 (by norm_num) (by norm_num),
    calculateStandardError_val 14 5000 0.00002408 (by norm_num) (by norm_num),
    calculateStandardError_val 10 5000 0.000018 (by norm_num) (by norm_num),
    calculateZScore_sqrt 14 10 0.00002408 0.000018 0.04 0.00004208
      (by norm_num) (by norm_num) (by norm_num) (by norm_num) (by norm_num)]

theorem zWin_ge : (6 : ℝ) ≤ 0.04 / Real.sqrt 0.00004208 := by
  have hpos : 0 < Real.sqrt 0.00004208 := Real.sqrt_pos.mpr (by norm_num)
  have hle : Real.sqrt 0.00004208 ≤ 1 / 150 := by
    have h := Real.sqrt_le_sqrt (by norm_num : (0.00004208 : ℝ) ≤ (1 / 150) ^ 2)
    rwa [Real.sqrt_sq (by norm_num : (0 : ℝ) ≤ 1 / 150)] at h
  calc (6 : ℝ) = 0.04 / (1 / 150) := by norm_num
    _ ≤ 0.04 / Real.sqrt 0.00004208 :=
        div_le_div_of_nonneg_left (by norm_num) hpos hle

/-- The 500/5000 vs 700/5000 comparison is significant at the default 95%
level, for the `cvr` metric. -/
theorem sigWin_cvr (c t : VariantResult)
    (hc1 : c.conversions = 500) (hc2 : c.clicks = 5000)
    (ht1 : t.conversions = 700) (ht2 : t.clicks = 5000) :
    (testSignificance c t .cvr 0.95).isSignificant = true := by
  rw [testSignificance_isSignificant_eq]
  apply decide_eq_true
  rw [testSignificance_pValue_eq, testSignificance_zScore_cvr,
    zWin_eq c t hc1 hc2 ht1 ht2]
  have h := calculatePValue_lt_of_six_le _ zWin_ge
  linarith

/-- The 500/5000 vs 700/5000 comparison is significant at the default 95%
level, for the `cpa` metric (whose significance test falls back to CVR). -/
theorem sigWin_cpa (c t : VariantResult)
    (hc1 : c.conversions = 500) (hc2 : c.clicks = 5000)
    (ht1 : t.conversions = 700) (ht2 : t.clicks = 5000) :
    (testSignificance c t .cpa 0.95).isSignificant = true := by
  rw [testSignificance_isSignificant_eq]
  apply decide_eq_true
  rw [testSignificance_pValue_eq, testSignificance_zScore_cpa,
    zWin_eq c t hc1 hc2 ht1 ht2]
  have h := calculatePValue_lt_of_six_le _ zWin_ge
  linarith

/-- The z-score of the 500/5000 vs 510/5000 CVR comparison. -/
theorem zTie_eq (c t : VariantResult)
    (hc1 : c.conversions = 500) (hc2 : c.clicks = 5000)
    (ht1 : t.conversions = 510) (ht2 : t.clicks = 5000) :
    calculateZScore (calculateCVR t.conversions t.clicks)
      (calculateCVR c.conversions c.clicks)
      (calculateStandardError (calculateCVR t.conversions t.clicks) t.clicks)
      (calculateStandardError (calculateCVR c.conversions c.clicks) c.clicks)
      = 0.002 / Real.sqrt 0.0000363192 := by
  rw [hc1, hc2, ht1, ht2]
  rw [calculateCVR_val 510 5000 10.2 (by norm_num) (by norm_num),
    calculateCVR_val 500 5000 10 (by norm_num) (by norm_num),
    calculateStandardError_val 10.2 5000 0.0000183192 (by norm_num) (by norm_num),
    calculateStandardError_val 10 5000 0.000018 (by norm_num) (by norm_num),
    calculateZScore_sqrt 10.2 10 0.0000183192 0.000018 0.002 0.0000363192
      (by norm_num) (by norm_num) (by norm_num) (by norm_num) (by norm_num)]

theorem zTie_bounds :
    0.32 ≤ 0.002 / Real.sqrt 0.0000363192
    ∧ 0.002 / Real.sqrt 0.0000363192 ≤ 0.34 := by
  have hpos : 0 < Real.sqrt 0.0000363192 := Real.sqrt_pos.mpr (by norm_num)
  have hub : Real.sqrt 0.0000363192 ≤ 0.00625 := by
    have h := Real.sqrt_le_sqrt (by norm_num : (0.0000363192 : ℝ) ≤ (0.00625) ^ 2)
    rwa [Real.sqrt_sq (by norm_num : (0 : ℝ) ≤ 0.00625)] at h
  have hlb : (0.0058824 : ℝ) ≤ Real.sqrt 0.0000363192 := by
    have h := Real.sqrt_le_sqrt (by norm_num : ((0.0058824 : ℝ)) ^ 2 ≤ 0.0000363192)
    rwa [Real.sqrt_sq (by norm_num : (0 : ℝ) ≤ 0.0058824)] at h
  constructor
  · calc (0.32 : ℝ) ≤ 0.002 / 0.00625 := by norm_num
      _ ≤ 0.002 / Real.sqrt 0.0000363192 :=
          div_le_div_of_nonneg_left (by norm_num) hpos hub
  · calc 0.002 / Real.sqrt 0.0000363192 ≤ 0.002 / 0.0058824 :=
          div_le_div_of_nonneg_left (by norm_num) (by norm_num) hlb
      _ ≤ 0.34 := by norm_num

/-- The 500/5000 vs 510/5000 comparison is not significant at the default 95%
level. -/
theorem notSigTie_cvr (c t : VariantResult)
    (hc1 : c.conversions = 500) (hc2 : c.clicks = 5000)
    (ht1 : t.conversions = 510) (ht2 : t.clicks = 5000) :
    (testSignificance c t .cvr 0.95).isSignificant = false := by
  rw [testSignificance_isSignificant_eq]
  apply decide_eq_false
  rw [testSignificance_pValue_eq, testSignificance_zScore_cvr,
    zTie_eq c t hc1 hc2 ht1 ht2]
  have h := calculatePValue_gt_of_center _ zTie_bounds.1 zTie_bounds.2
  intro hcontra
  linarith

theorem getMetricValue_cvr (r : VariantResult) :
    getMetricValue r .cvr = .fin (calculateCVR r.conversions r.clicks) := rfl

theorem getMetricValue_cpa (r : VariantResult) :
    getMetricValue r .cpa = calculateCPA r.spend r.conversions := rfl

/-- The improvement of the 500/5000 vs 700/5000 CVR scenario is +40%. -/
theorem improvementWin (c t : VariantResult)
    (hc1 : c.conversions = 500) (hc2 : c.clicks = 5000)
    (ht1 : t.conversions = 700) (ht2 : t.clicks = 5000) :
    improvementOf c t .cvr = .fin 40 := by
  simp only [improvementOf]
  rw [if_neg (by simp : ¬(MetricType.cvr = .cpa ∨ MetricType.cvr = .cpc))]
  simp only [getMetricValue_cvr]
  rw [hc1, hc2, ht1, ht2,
    calculateCVR_val 700 5000 14 (by norm_num) (by norm_num),
    calculateCVR_val 500 5000 10 (by norm_num) (by norm_num)]
  norm_num [JsNum.sub, JsNum.div, JsNum.mul]

/-- Control of the winner scenario: 500 conversions out of 5000 clicks. -/
noncomputable def winCtrl : VariantResult :=
  { variantId := "control", variantName := "Control", isControl := true,
    sampleSize := 5000, conversions := 500, clicks := 5000,
    impressions := 500000, spend := 25000, revenue := 50000 }

/-- Treatment of the winner scenario: 700 conversions out of 5000 clicks. -/
noncomputable def winTreat : VariantResult :=
  { variantId := "treatment", variantName := "Treatment", isControl := false,
    sampleSize := 5000, conversions := 700, clicks := 5000,
    impressions := 500000, spend := 25000, revenue := 70000 }

/-- Witness for C1: the spec's winner scenario (control 500/5000 vs treatment
700/5000 on `cvr`, confidence 0.95, `minSampleSize` 100) yields status
`winner`, `winnerVariantId = "treatment"` and improvement `+40% > 0`. -/
theorem determineWinner_winner_char_witness :
    (determineWinner [winCtrl, winTreat] .cvr 0.95 100).status = .winner
    ∧ (determineWinner [winCtrl, winTreat] .cvr 0.95 100).winnerVariantId
        = some "treatment"
    ∧ (determineWinner [winCtrl, winTreat] .cvr 0.95 100).improvement
        = some (.fin 40)
    ∧ JsNum.ltb (.fin 0) (.fin 40) = true := by
  have hfind : [winCtrl, winTreat].find? (fun v => v.isControl) = some winCtrl := rfl
  have hss : (100 : ℝ) ≤ totalSampleSize [winCtrl, winTreat] := by
    simp only [totalSampleSize, List.foldl]
    norm_num [winCtrl, winTreat]
  have hfilter : [winCtrl, winTreat].filter (fun v => !v.isControl) = [winTreat] := rfl
  have himp : improvementOf winCtrl winTreat .cvr = .fin 40 :=
    improvementWin winCtrl winTreat rfl rfl rfl rfl
  have hq : ∃ t ∈ [winCtrl, winTreat].filter (fun v => !v.isControl),
      Qualifies winCtrl .cvr 0.95 t := by
    refine ⟨winTreat, ?_, ?_⟩
    · rw [hfilter]; exact List.mem_singleton_self winTreat
    · exact ⟨sigWin_cvr winCtrl winTreat rfl rfl rfl rfl,
        by rw [himp]; norm_num [JsNum.ltb]⟩
  obtain ⟨t, htmem, hqt, heq, hmax⟩ :=
    (determineWinner_winner_char [winCtrl, winTreat] .cvr 0.95 100
      (by norm_num) winCtrl hfind hss).2 hq
  have ht : t = winTreat := by
    rw [hfilter] at htmem
    simpa using htmem
  subst ht
  rw [heq, himp]
  exact ⟨rfl, rfl, rfl, by norm_num [JsNum.ltb]⟩

/-- Control of the tie scenario: 500 conversions out of 5000 clicks. -/
noncomputable def tieCtrl : VariantResult :=
  { variantId := "control", variantName := "Control", isControl := true,
    sampleSize := 5000, conversions := 500, clicks := 5000,
    impressions := 500000, spend := 25000, revenue := 50000 }

/-- Treatment of the tie scenario: 510 conversions out of 5000 clicks. -/
noncomputable def tieTreat : VariantResult :=
  { variantId := "treatment", variantName := "Treatment", isControl := false,
    sampleSize := 5000, conversions := 510, clicks := 5000,
    impressions := 500000, spend := 25000, revenue := 51000 }

/-- Witness for C3: the spec's tie scenario (control 500/5000 vs treatment
510/5000 on `cvr`) yields status `tie` with confidence 0.5. -/
theorem determineWinner_loser_tie_char_witness :
    determineWinner [tieCtrl, tieTreat] .cvr 0.95 100 =
      { status := .tie, winnerVariantId := none, improvement := none,
        confidence := 0.5, reason := .noSignificantDifferenceFound } := by
  have hfind : [tieCtrl, tieTreat].find? (fun v => v.isControl) = some tieCtrl := rfl
  have hss : (100 : ℝ) ≤ totalSampleSize [tieCtrl, tieTreat] := by
    simp only [totalSampleSize, List.foldl]
    norm_num [tieCtrl, tieTreat]
  have hfilter : [tieCtrl, tieTreat].filter (fun v => !v.isControl) = [tieTreat] := rfl
  have hnsig := notSigTie_cvr tieCtrl tieTreat rfl rfl rfl rfl
  have hnq : ∀ t ∈ [tieCtrl, tieTreat].filter (fun v => !v.isControl),
      ¬ Qualifies tieCtrl .cvr 0.95 t := by
    rw [hfilter]
    intro t htmem
    rw [List.mem_singleton] at htmem
    subst htmem
    rintro ⟨h1, _⟩
    rw [hnsig] at h1
    exact Bool.noConfusion h1
  refine (determineWinner_loser_tie_char [tieCtrl, tieTreat] .cvr 0.95 100
    (by norm_num) tieCtrl hfind hss hnq).2.2 ?_
  rw [hfilter]
  intro t htmem
  rw [List.mem_singleton] at htmem
  subst htmem
  rintro ⟨h1, _⟩
  rw [hnsig] at h1
  exact Bool.noConfusion h1

/-! ### First-control selection and duplicate controls -/

theorem find?_first_control (pre : List VariantResult) (c : VariantResult)
    (post : List VariantResult) (hpre : ∀ v ∈ pre, v.isControl = false)
    (hc : c.isControl = true) :
    (pre ++ c :: post).find? (fun v => v.isControl) = some c := by
  induction pre with
  | nil =>
      rw [List.nil_append]
      exact List.find?_cons_of_pos _ (by simp [hc])
  | cons a pre ih =>
      have ha : a.isControl = false := hpre a (List.mem_cons_self a pre)
      have ih' := ih (fun v hv => hpre v (List.mem_cons_of_mem a hv))
      rw [List.cons_append, List.find?_cons_of_neg _ (by simp [ha])]
      exact ih'

theorem decideAfterGuards_nil (c : VariantResult) (m : MetricType) (cl : ℝ) :
    decideAfterGuards c [] m cl =
      { status := .tie, winnerVariantId := none, improvement := none,
        confidence := 0.5, reason := .noSignificantDifferenceFound } :=
  decideAfterGuards_tie c [] m cl (by simp) (by simp)

/-- **C9.**  When several variants are flagged `isControl`, `determineWinner`
uses the first such variant in list order as the control, and every
control-flagged variant is excluded from the treatment set (the treatments
are exactly the variants with `isControl = false`); consequently a
two-variant list in which both variants are flagged as control (and whose
total sample size meets `minSampleSize`) yields status `tie` with
confidence 0.5. -/
theorem determineWinner_first_control_spec
    (pre : List VariantResult) (c : VariantResult) (post : List VariantResult)
    (m : MetricType) (cl mss : ℝ)
    (hpre : ∀ v ∈ pre, v.isControl = false) (hc : c.isControl = true)
    (h2 : 2 ≤ (pre ++ c :: post).length)
    (hss : mss ≤ totalSampleSize (pre ++ c :: post)) :
    determineWinner (pre ++ c :: post) m cl mss =
      decideAfterGuards c ((pre ++ c :: post).filter (fun v => !v.isControl)) m cl
    ∧ (∀ u ∈ (pre ++ c :: post).filter (fun v => !v.isControl), u.isControl = false)
    ∧ (∀ v1 v2 : VariantResult, v1.isControl = true → v2.isControl = true →
        ∀ (m' : MetricType) (cl' mss' : ℝ), mss' ≤ totalSampleSize [v1, v2] →
        determineWinner [v1, v2] m' cl' mss' =
          { status := .tie, winnerVariantId := none, improvement := none,
            confidence := 0.5, reason := .noSignificantDifferenceFound }) := by
  refine ⟨determineWinner_afterGuards _ m cl mss h2 c
      (find?_first_control pre c post hpre hc) hss, ?_, ?_⟩
  · intro u hu
    have h := List.mem_filter.mp hu
    simpa using h.2
  · intro v1 v2 h1 h2' m' cl' mss' hss'
    have hfind : [v1, v2].find? (fun v => v.isControl) = some v1 :=
      List.find?_cons_of_pos _ (by simp [h1])
    have hfilter : [v1, v2].filter (fun v => !v.isControl) = [] := by
      simp [List.filter_cons, h1, h2']
    rw [determineWinner_afterGuards [v1, v2] m' cl' mss' (by simp) v1 hfind hss',
      hfilter, decideAfterGuards_nil]

/-- First duplicate control of the C9 witness. -/
noncomputable def dupCtrl1 : VariantResult :=
  { variantId := "a", variantName := "A", isControl := true,
    sampleSize := 60, conversions := 10, clicks := 100,
    impressions := 1000, spend := 50, revenue := 100 }

/-- Second duplicate control of the C9 witness. -/
noncomputable def dupCtrl2 : VariantResult :=
  { variantId := "b", variantName := "B", isControl := true,
    sampleSize := 60, conversions := 30, clicks := 100,
    impressions := 1000, spend := 50, revenue := 300 }

/-- Witness for C9: two variants both flagged as control (total sample size
120 ≥ 100) yield a tie with confidence 0.5. -/
theorem determineWinner_first_control_spec_witness :
    determineWinner [dupCtrl1, dupCtrl2] .cvr 0.95 100 =
      { status := .tie, winnerVariantId := none, improvement := none,
        confidence := 0.5, reason := .noSignificantDifferenceFound } := by
  have hss : (100 : ℝ) ≤ totalSampleSize ([] ++ dupCtrl1 :: [dupCtrl2]) := by
    simp only [totalSampleSize, List.nil_append, List.foldl]
    norm_num [dupCtrl1, dupCtrl2]
  exact (determineWinner_first_control_spec [] dupCtrl1 [dupCtrl2] .cvr 0.95 100
    (by simp) rfl (by simp) hss).2.2 dupCtrl1 dupCtrl2 rfl rfl .cvr 0.95 100
    (by simpa using hss)

/-! ### The unguarded improvement quotient at a zero control metric -/

theorem getMetricValue_fin_of_ne_cpa (r : VariantResult) (m : MetricType)
    (hm : m ≠ .cpa) : ∃ x, getMetricValue r m = .fin x := by
  cases m with
  | cpa => exact absurd rfl hm
  | cvr => exact ⟨_, rfl⟩
  | ctr => exact ⟨_, rfl⟩
  | roas => exact ⟨_, rfl⟩
  | revenue => exact ⟨_, rfl⟩
  | cpc => exact ⟨_, rfl⟩

theorem improvement_zero_control (c t : VariantResult) (m : MetricType)
    (hm1 : m ≠ .cpa) (hm2 : m ≠ .cpc)
    (hzero : getMetricValue c m = .fin 0) :
    JsNum.ltb (.fin 0) (improvementOf c t m)
        = JsNum.ltb (.fin 0) (getMetricValue t m)
    ∧ (JsNum.ltb (.fin 0) (getMetricValue t m) = true →
        improvementOf c t m = .posInf) := by
  obtain ⟨x, hx⟩ := getMetricValue_fin_of_ne_cpa t m hm1
  have hcond : ¬(m = .cpa ∨ m = .cpc) := by
    rintro (h | h)
    exacts [hm1 h, hm2 h]
  simp only [improvementOf, if_neg hcond, hx, hzero]
  have hsub : (JsNum.fin x).sub (.fin 0) = .fin x := by
    simp [JsNum.sub]
  rw [hsub]
  rcases lt_trichotomy 0 x with hpos | hzero' | hneg
  · have hdiv : (JsNum.fin x).div (.fin 0) = .posInf := by
      simp [JsNum.div, hpos.ne', hpos]
    have hmul : (JsNum.posInf).mul (.fin 100) = .posInf := by
      norm_num [JsNum.mul]
    rw [hdiv, hmul]
    exact ⟨by simp [JsNum.ltb, hpos], fun _ => rfl⟩
  · subst hzero'
    have hdiv : (JsNum.fin 0).div (.fin 0) = .nan := by
      simp [JsNum.div]
    have hmul : (JsNum.nan).mul (.fin 100) = .nan := by
      simp [JsNum.mul]
    rw [hdiv, hmul]
    exact ⟨by simp [JsNum.ltb], fun h => by simp [JsNum.ltb] at h⟩
  · have hdiv : (JsNum.fin x).div (.fin 0) = .negInf := by
      simp [JsNum.div, hneg.ne, not_lt.mpr hneg.le]
    have hmul : (JsNum.negInf).mul (.fin 100) = .negInf := by
      norm_num [JsNum.mul]
    rw [hdiv, hmul]
    refine ⟨by simp [JsNum.ltb, not_lt.mpr hneg.le, hneg], fun h => ?_⟩
    have hx0 : 0 < x := by simpa [JsNum.ltb] using h
    exact absurd hx0 (not_lt.mpr hneg.le)

/-- **C10 (amended).**  For a higher-is-better metric (every metric except
`cpa`/`cpc`), the improvement quotient of `determineWinner` is not guarded
against a zero control metric: whenever the guards pass, the control's
primary-metric value is `0`, and some treatment has a positive metric value
whose comparison against the control is statistically significant, the result
has status `winner` with `improvement = +Infinity` (not any finite sentinel)
and `confidence = 1 − pValue` of a qualifying treatment's comparison. -/
theorem determineWinner_zero_control (variants : List VariantResult)
    (m : MetricType) (cl mss : ℝ) (h2 : 2 ≤ variants.length) (c : VariantResult)
    (hc : variants.find? (fun v => v.isControl) = some c)
    (hss : mss ≤ totalSampleSize variants)
    (hm1 : m ≠ .cpa) (hm2 : m ≠ .cpc)
    (hzero : getMetricValue c m = .fin 0)
    (hex : ∃ t ∈ variants.filter (fun v => !v.isControl),
      (testSignificance c t m cl).isSignificant = true
        ∧ JsNum.ltb (.fin 0) (getMetricValue t m) = true) :
    (determineWinner variants m cl mss).status = .winner
    ∧ (determineWinner variants m cl mss).improvement = some .posInf
    ∧ ∃ t ∈ variants.filter (fun v => !v.isControl),
        (testSignificance c t m cl).isSignificant = true
        ∧ JsNum.ltb (.fin 0) (getMetricValue t m) = true
        ∧ (determineWinner variants m cl mss).winnerVariantId = some t.variantId
        ∧ (determineWinner variants m cl mss).confidence
            = 1 - (testSignificance c t m cl).pValue := by
  have hQiff : ∀ t, Qualifies c m cl t ↔
      ((testSignificance c t m cl).isSignificant = true
        ∧ JsNum.ltb (.fin 0) (getMetricValue t m) = true) := by
    intro t
    unfold Qualifies
    rw [(improvement_zero_control c t m hm1 hm2 hzero).1]
  have hq : ∃ t ∈ variants.filter (fun v => !v.isControl), Qualifies c m cl t := by
    obtain ⟨t, htm, hsig, hpos⟩ := hex
    exact ⟨t, htm, (hQiff t).mpr ⟨hsig, hpos⟩⟩
  rw [determineWinner_afterGuards variants m cl mss h2 c hc hss]
  obtain ⟨t, htmem, hqt, heq, hmax⟩ := decideAfterGuards_winner_spec c _ m cl hq
  have himp : improvementOf c t m = .posInf :=
    (improvement_zero_control c t m hm1 hm2 hzero).2 ((hQiff t).mp hqt).2
  rw [heq, himp]
  exact ⟨rfl, rfl, t, htmem, ((hQiff t).mp hqt).1, ((hQiff t).mp hqt).2, rfl, rfl⟩

/-- Control of the C10 counterexample: zero spend, so its CPA is `0`. -/
noncomputable def cpaCtrl : VariantResult :=
  { variantId := "control", variantName := "Control", isControl := true,
    sampleSize := 5000, conversions := 500, clicks := 5000,
    impressions := 500000, spend := 0, revenue := 50000 }

/-- Treatment of the C10 counterexample: positive CPA `100/700`. -/
noncomputable def cpaTreat : VariantResult :=
  { variantId := "treatment", variantName := "Treatment", isControl := false,
    sampleSize := 5000, conversions := 700, clicks := 5000,
    impressions := 500000, spend := 100, revenue := 70000 }

theorem cpaCtrl_metric : getMetricValue cpaCtrl .cpa = .fin 0 := by
  rw [getMetricValue_cpa]
  rw [show cpaCtrl.spend = (0 : ℝ) from rfl, show cpaCtrl.conversions = (500 : ℝ) from rfl]
  norm_num [calculateCPA]

theorem cpaTreat_metric : getMetricValue cpaTreat .cpa = .fin (1 / 7) := by
  rw [getMetricValue_cpa]
  rw [show cpaTreat.spend = (100 : ℝ) from rfl, show cpaTreat.conversions = (700 : ℝ) from rfl]
  norm_num [calculateCPA]

theorem improvement_cpa_cex : improvementOf cpaCtrl cpaTreat .cpa = .negInf := by
  simp only [improvementOf, true_or, if_true]
  rw [cpaCtrl_metric, cpaTreat_metric]
  norm_num [JsNum.sub, JsNum.div, JsNum.mul]

/-- Counterexample for C10 as frozen: at the metric `cpa` (where lower is
better), a variant list passing all guards, with control `cpa = 0`, a
treatment with positive `cpa`, and a statistically significant comparison,
yields status `loser` — not `winner` with `improvement = +Infinity`, because
`(0 − t)/0 · 100 = −Infinity` fails the positive-improvement test and the
control wins the directional comparison instead. -/
theorem determineWinner_zero_control_cex :
    getMetricValue cpaCtrl .cpa = .fin 0
    ∧ (testSignificance cpaCtrl cpaTreat .cpa 0.95).isSignificant = true
    ∧ JsNum.ltb (.fin 0) (getMetricValue cpaTreat .cpa) = true
    ∧ 2 ≤ ([cpaCtrl, cpaTreat] : List VariantResult).length
    ∧ [cpaCtrl, cpaTreat].find? (fun v => v.isControl) = some cpaCtrl
    ∧ (100 : ℝ) ≤ totalSampleSize [cpaCtrl, cpaTreat]
    ∧ (determineWinner [cpaCtrl, cpaTreat] .cpa 0.95 100).status = .loser := by
  have hsig := sigWin_cpa cpaCtrl cpaTreat rfl rfl rfl rfl
  have hss : (100 : ℝ) ≤ totalSampleSize [cpaCtrl, cpaTreat] := by
    simp only [totalSampleSize, List.foldl]
    norm_num [cpaCtrl, cpaTreat]
  have hfilter : [cpaCtrl, cpaTreat].filter (fun v => !v.isControl) = [cpaTreat] := rfl
  have hpos : JsNum.ltb (.fin 0) (getMetricValue cpaTreat .cpa) = true := by
    rw [cpaTreat_metric]
    norm_num [JsNum.ltb]
  have hnq : ∀ t ∈ [cpaCtrl, cpaTreat].filter (fun v => !v.isControl),
      ¬ Qualifies cpaCtrl .cpa 0.95 t := by
    rw [hfilter]
    intro t htmem
    rw [List.mem_singleton] at htmem
    subst htmem
    rintro ⟨_, hlt⟩
    rw [improvement_cpa_cex] at hlt
    simp [JsNum.ltb] at hlt
  have hcb : ControlBeats cpaCtrl .cpa 0.95 cpaTreat := by
    refine ⟨hsig, ?_⟩
    simp only [controlBetterB, true_or, if_true]
    rw [cpaCtrl_metric, cpaTreat_metric]
    norm_num [JsNum.ltb]
  refine ⟨cpaCtrl_metric, hsig, hpos, by simp, rfl, hss, ?_⟩
  rw [determineWinner_afterGuards [cpaCtrl, cpaTreat] .cpa 0.95 100 (by simp)
    cpaCtrl rfl hss]
  obtain ⟨t₀, _, _, heq⟩ := decideAfterGuards_loser_spec cpaCtrl
    ([cpaCtrl, cpaTreat].filter (fun v => !v.isControl)) .cpa 0.95 hnq
    ⟨cpaTreat, by rw [hfilter]; exact List.mem_singleton_self _, hcb⟩
  rw [heq]

theorem calculateZScore_sqrt_zero (rateA rateB a num : ℝ) (hapos : 0 < a)
    (hnum : (rateA - rateB) / 100 = num) :
    calculateZScore rateA rateB (Real.sqrt a) 0 = num / Real.sqrt a := by
  simp only [calculateZScore]
  rw [Real.mul_self_sqrt hapos.le, mul_zero, add_zero,
    if_neg (Real.sqrt_pos.mpr hapos).ne', hnum]

/-- Control of the C10 witness: zero clicks, hence `cvr = 0` and per-arm
standard error `0`. -/
noncomputable def zeroCtrl : VariantResult :=
  { variantId := "control", variantName := "Control", isControl := true,
    sampleSize := 0, conversions := 0, clicks := 0,
    impressions := 0, spend := 0, revenue := 0 }

/-- Treatment of the C10 witness: 700 conversions out of 5000 clicks. -/
noncomputable def zeroTreat : VariantResult :=
  { variantId := "treatment", variantName := "Treatment", isControl := false,
    sampleSize := 5000, conversions := 700, clicks := 5000,
    impressions := 500000, spend := 25000, revenue := 70000 }

theorem sigZero_cvr : (testSignificance zeroCtrl zeroTreat .cvr 0.95).isSignificant
    = true := by
  rw [testSignificance_isSignificant_eq]
  apply decide_eq_true
  rw [testSignificance_pValue_eq, testSignificance_zScore_cvr]
  have hT : calculateCVR zeroTreat.conversions zeroTreat.clicks = 14 := by
    rw [show zeroTreat.conversions = (700 : ℝ) from rfl,
      show zeroTreat.clicks = (5000 : ℝ) from rfl]
    exact calculateCVR_val 700 5000 14 (by norm_num) (by norm_num)
  have hC : calculateCVR zeroCtrl.conversions zeroCtrl.clicks = 0 := by
    rw [show zeroCtrl.clicks = (0 : ℝ) from rfl]
    simp [calculateCVR]
  rw [hT, hC]
  have hseT : calculateStandardError 14 zeroTreat.clicks = Real.sqrt 0.00002408 := by
    rw [show zeroTreat.clicks = (5000 : ℝ) from rfl]
    exact calculateStandardError_val 14 5000 0.00002408 (by norm_num) (by norm_num)
  have hseC : calculateStandardError 0 zeroCtrl.clicks = 0 := by
    rw [show zeroCtrl.clicks = (0 : ℝ) from rfl]
    simp [calculateStandardError]
  rw [hseT, hseC,
    calculateZScore_sqrt_zero 14 0 0.00002408 0.14 (by norm_num) (by norm_num)]
  have hz : (6 : ℝ) ≤ 0.14 / Real.sqrt 0.00002408 := by
    have hpos : 0 < Real.sqrt 0.00002408 := Real.sqrt_pos.mpr (by norm_num)
    have hle : Real.sqrt 0.00002408 ≤ 1 / 150 := by
      have h := Real.sqrt_le_sqrt (by norm_num : (0.00002408 : ℝ) ≤ (1 / 150) ^ 2)
      rwa [Real.sqrt_sq (by norm_num : (0 : ℝ) ≤ 1 / 150)] at h
    calc (6 : ℝ) ≤ 0.14 / (1 / 150) := by norm_num
      _ ≤ 0.14 / Real.sqrt 0.00002408 :=
          div_le_div_of_nonneg_left (by norm_num) hpos hle
  linarith [calculatePValue_lt_of_six_le _ hz]

/-- Witness for C10 (amended): with a zero-click control (`cvr = 0`) against
a 700/5000 treatment on `cvr`, the decision is a winner with improvement
`+Infinity`. -/
theorem determineWinner_zero_control_witness :
    (determineWinner [zeroCtrl, zeroTreat] .cvr 0.95 100).status = .winner
    ∧ (determineWinner [zeroCtrl, zeroTreat] .cvr 0.95 100).improvement
        = some .posInf := by
  have hss : (100 : ℝ) ≤ totalSampleSize [zeroCtrl, zeroTreat] := by
    simp only [totalSampleSize, List.foldl]
    norm_num [zeroCtrl, zeroTreat]
  have hzero : getMetricValue zeroCtrl .cvr = .fin 0 := by
    rw [getMetricValue_cvr, show zeroCtrl.clicks = (0 : ℝ) from rfl]
    simp [calculateCVR]
  have hfilter : [zeroCtrl, zeroTreat].filter (fun v => !v.isControl)
      = [zeroTreat] := rfl
  have hpos : JsNum.ltb (.fin 0) (getMetricValue zeroTreat .cvr) = true := by
    rw [getMetricValue_cvr, show zeroTreat.conversions = (700 : ℝ) from rfl,
      show zeroTreat.clicks = (5000 : ℝ) from rfl,
      calculateCVR_val 700 5000 14 (by norm_num) (by norm_num)]
    norm_num [JsNum.ltb]
  have h := determineWinner_zero_control [zeroCtrl, zeroTreat] .cvr 0.95 100
    (by simp) zeroCtrl rfl hss (by decide) (by decide) hzero
    ⟨zeroTreat, by rw [hfilter]; exact List.mem_singleton_self _, sigZero_cvr, hpos⟩
  exact ⟨h.1, h.2.1⟩

/-! ### Totality of the learning generator and test-result creation -/

theorem generateLearnings_nil (w : WinnerDecision) : generateLearnings [] w = none := by
  simp [generateLearnings]

theorem generateLearnings_isSome (v : VariantResult) (vs : List VariantResult)
    (w : WinnerDecision) : (generateLearnings (v :: vs) w).isSome = true := by
  simp [generateLearnings]

theorem createTestResult_nil (runId : String) (tt : TestType) (sd ed : String)
    (pm : MetricType) : createTestResult runId tt sd ed pm [] = none := by
  simp [createTestResult, generateLearnings_nil]

theorem createTestResult_isSome (runId : String) (tt : TestType) (sd ed : String)
    (pm : MetricType) (v : VariantResult) (vs : List VariantResult) :
    (createTestResult runId tt sd ed pm (v :: vs)).isSome = true := by
  have h := generateLearnings_isSome v vs (determineWinner (v :: vs) pm 0.95 100)
  obtain ⟨l, hl⟩ := Option.isSome_iff_exists.mp h
  simp [createTestResult, hl]

/-- Counterexample for C5 as frozen: on the empty variant list the source's
`generateLearnings` reads `sortedByCTR[0]` (`undefined`) and dereferences it
inside `calculateVariantMetrics`, raising a `TypeError` (modelled as `none`),
and `createTestResult` propagates that failure — so those two operations do
not "complete without raising" on the empty list. -/
theorem engine_no_exceptions_cex :
    generateLearnings []
        { status := .insufficient_data, winnerVariantId := none, improvement := none,
          confidence := 0, reason := .atLeastTwoVariantsRequired } = none
    ∧ createTestResult "run_1" .ab_test "2024-01-01" "2024-01-31" .cvr [] = none :=
  ⟨generateLearnings_nil _, createTestResult_nil _ _ _ _ _⟩

/-- **C5 (amended).**  For every *non-empty* variant list the engine raises
no exceptions: `generateLearnings` and `createTestResult` return a value
(`isSome`); and `determineWinner` maps the empty and the single-element list
to status `insufficient_data` (itself never failing). -/
theorem engine_no_exceptions_amended :
    (∀ (variants : List VariantResult) (w : WinnerDecision), variants ≠ [] →
      (generateLearnings variants w).isSome = true)
    ∧ (∀ (runId : String) (tt : TestType) (sd ed : String) (pm : MetricType)
        (variants : List VariantResult), variants ≠ [] →
        (createTestResult runId tt sd ed pm variants).isSome = true)
    ∧ (∀ (m : MetricType) (cl mss : ℝ),
        (determineWinner [] m cl mss).status = .insufficient_data)
    ∧ (∀ (v : VariantResult) (m : MetricType) (cl mss : ℝ),
        (determineWinner [v] m cl mss).status = .insufficient_data) := by
  refine ⟨?_, ?_, ?_, ?_⟩
  · intro variants w hne
    cases variants with
    | nil => exact absurd rfl hne
    | cons v vs => exact generateLearnings_isSome v vs w
  · intro runId tt sd ed pm variants hne
    cases variants with
    | nil => exact absurd rfl hne
    | cons v vs => exact createTestResult_isSome runId tt sd ed pm v vs
  · intro m cl mss
    rw [determineWinner_guard_few [] m cl mss (by simp)]
  · intro v m cl mss
    rw [determineWinner_guard_few [v] m cl mss (by simp)]

/-- Variant used to witness the amended C5. -/
noncomputable def soloVariant : VariantResult :=
  { variantId := "solo", variantName := "Solo", isControl := false,
    sampleSize := 500, conversions := 50, clicks := 500,
    impressions := 5000, spend := 100, revenue := 1000 }

/-- Witness for C5 (amended) at concrete inputs. -/
theorem engine_no_exceptions_amended_witness :
    (generateLearnings [soloVariant]
        { status := .tie, winnerVariantId := none, improvement := none,
          confidence := 0.5, reason := .noSignificantDifferenceFound }).isSome = true
    ∧ (createTestResult "run_1" .ab_test "2024-01-01" "2024-01-31" .cvr
        [soloVariant]).isSome = true
    ∧ (determineWinner [soloVariant] .cvr 0.95 100).status = .insufficient_data :=
  ⟨engine_no_exceptions_amended.1 [soloVariant] _ (by simp),
   engine_no_exceptions_amended.2.1 "run_1" .ab_test "2024-01-01" "2024-01-31" .cvr
     [soloVariant] (by simp),
   engine_no_exceptions_amended.2.2.2 soloVariant .cvr 0.95 100⟩

/-! ### The sample-size planner -/

theorem calculateRequiredSampleSize_eq (b mde p cl : ℝ)
    (hden : ((b + mde) / 100 - b / 100) ^ 2 ≠ 0) :
    calculateRequiredSampleSize b mde p cl =
      .fin ((⌈2 * ((if cl = 0.95 then (1.96 : ℝ) else 2.576)
          + (if p = 0.8 then (0.84 : ℝ) else 1.28)) ^ 2
          * ((b / 100 + (b + mde) / 100) / 2)
          * (1 - (b / 100 + (b + mde) / 100) / 2)
          / ((b + mde) / 100 - b / 100) ^ 2⌉ : ℤ) : ℝ) := by
  simp only [calculateRequiredSampleSize]
  rw [if_neg hden]

/-- Counterexample for C8 as frozen: with `baselineRate = 90` (so that
`baseline + mde` exceeds 100% and the pooled proportion leaves `[0,1]`),
the planner output *increases* from `-10` at `mde = 50` to `-4` at
`mde = 1000`, violating plain monotone non-increase over all effects. -/
theorem calculateRequiredSampleSize_mono_cex :
    calculateRequiredSampleSize 90 50 0.8 0.95 = .fin (-10)
    ∧ calculateRequiredSampleSize 90 1000 0.8 0.95 = .fin (-4)
    ∧ ¬ ((-4 : ℝ) ≤ (-10 : ℝ))
    ∧ JsNum.leb (calculateRequiredSampleSize 90 1000 0.8 0.95)
        (calculateRequiredSampleSize 90 50 0.8 0.95) = false := by
  have h1 : calculateRequiredSampleSize 90 50 0.8 0.95 = .fin (-10) := by
    rw [calculateRequiredSampleSize_eq 90 50 0.8 0.95 (by norm_num)]
    rw [if_pos (rfl : (0.95 : ℝ) = 0.95), if_pos (rfl : (0.8 : ℝ) = 0.8)]
    norm_num [JsNum.fin.injEq]
    have hcl : ⌈(-(6762 / 625) : ℝ)⌉ = (-10 : ℤ) := by
      rw [Int.ceil_eq_iff]
      constructor <;> norm_num
    rw [hcl]
    norm_num
  have h2 : calculateRequiredSampleSize 90 1000 0.8 0.95 = .fin (-4) := by
    rw [calculateRequiredSampleSize_eq 90 1000 0.8 0.95 (by norm_num)]
    rw [if_pos (rfl : (0.95 : ℝ) = 0.95), if_pos (rfl : (0.8 : ℝ) = 0.8)]
    norm_num [JsNum.fin.injEq]
    have hcl : ⌈(-(141659 / 31250) : ℝ)⌉ = (-4 : ℤ) := by
      rw [Int.ceil_eq_iff]
      constructor <;> norm_num
    rw [hcl]
    norm_num
  refine ⟨h1, h2, by norm_num, ?_⟩
  rw [h1, h2]
  simp only [JsNum.leb]
  norm_num

theorem planner_core (a u v : ℝ) (ha : 0 ≤ a) (hu : 0 < u) (huv : u < v)
    (hdom : a + v ≤ 1) :
    (a + v / 2) * (1 - (a + v / 2)) * u ^ 2
      ≤ (a + u / 2) * (1 - (a + u / 2)) * v ^ 2 := by
  have hv : 0 < v := lt_trans hu huv
  have key : (a + u / 2) * (1 - (a + u / 2)) * v ^ 2
        - (a + v / 2) * (1 - (a + v / 2)) * u ^ 2
      = (v - u) * (a * (1 - a) * (u + v) + (1 - 2 * a) * (u * v) / 2) := by
    ring
  have hbracket : 0 ≤ a * (1 - a) * (u + v) + (1 - 2 * a) * (u * v) / 2 := by
    rcases le_or_lt a (1 / 2) with hca | hca
    · have ha1 : (0 : ℝ) ≤ 1 - a := by linarith
      have h1 : 0 ≤ a * (1 - a) * (u + v) :=
        mul_nonneg (mul_nonneg ha ha1) (by linarith)
      have h2 : 0 ≤ (1 - 2 * a) * (u * v) / 2 :=
        div_nonneg (mul_nonneg (by linarith) (mul_pos hu hv).le) (by norm_num)
      linarith
    · nlinarith [mul_nonneg (mul_nonneg (by linarith : (0 : ℝ) ≤ 2 * a - 1)
          (by linarith : (0 : ℝ) ≤ 1 - a - u)) hv.le,
        mul_nonneg (mul_nonneg ha (by linarith : (0 : ℝ) ≤ 1 - a)) hu.le,
        mul_nonneg (by linarith : (0 : ℝ) ≤ 1 - a) hv.le]
  nlinarith [mul_nonneg (by linarith : (0 : ℝ) ≤ v - u) hbracket]

/-- **C8 (amended).**  For every baseline rate and effect pair inside the
percentage domain (`0 ≤ baselineRate`, `0 < mde1 < mde2`,
`baselineRate + mde2 ≤ 100`), and for every fixed power and confidence
level, `calculateRequiredSampleSize` is monotonically non-increasing in the
minimum detectable effect. -/
theorem calculateRequiredSampleSize_mono (b mde1 mde2 power cl : ℝ)
    (hb : 0 ≤ b) (h1 : 0 < mde1) (h12 : mde1 < mde2) (hdom : b + mde2 ≤ 100) :
    JsNum.leb (calculateRequiredSampleSize b mde2 power cl)
      (calculateRequiredSampleSize b mde1 power cl) = true := by
  have hm1 : (b + mde1) / 100 - b / 100 = mde1 / 100 := by ring
  have hm2 : (b + mde2) / 100 - b / 100 = mde2 / 100 := by ring
  have hden1pos : 0 < ((b + mde1) / 100 - b / 100) ^ 2 := by
    rw [hm1]; positivity
  have hden2pos : 0 < ((b + mde2) / 100 - b / 100) ^ 2 := by
    rw [hm2]
    have h2 : 0 < mde2 := lt_trans h1 h12
    positivity
  rw [calculateRequiredSampleSize_eq b mde2 power cl hden2pos.ne',
    calculateRequiredSampleSize_eq b mde1 power cl hden1pos.ne']
  simp only [JsNum.leb]
  apply decide_eq_true
  have hcore := planner_core (b / 100) (mde1 / 100) (mde2 / 100)
    (by positivity) (by positivity) (by linarith) (by linarith)
  have hK : (0 : ℝ) ≤ 2 * ((if cl = 0.95 then (1.96 : ℝ) else 2.576)
      + (if power = 0.8 then (0.84 : ℝ) else 1.28)) ^ 2 := by positivity
  have hq : 2 * ((if cl = 0.95 then (1.96 : ℝ) else 2.576)
        + (if power = 0.8 then (0.84 : ℝ) else 1.28)) ^ 2
        * ((b / 100 + (b + mde2) / 100) / 2)
        * (1 - (b / 100 + (b + mde2) / 100) / 2)
        / ((b + mde2) / 100 - b / 100) ^ 2
      ≤ 2 * ((if cl = 0.95 then (1.96 : ℝ) else 2.576)
        + (if power = 0.8 then (0.84 : ℝ) else 1.28)) ^ 2
        * ((b / 100 + (b + mde1) / 100) / 2)
        * (1 - (b / 100 + (b + mde1) / 100) / 2)
        / ((b + mde1) / 100 - b / 100) ^ 2 := by
    rw [div_le_div_iff₀ hden2pos hden1pos]
    nlinarith [hcore, hK]
  exact_mod_cast Int.ceil_le_ceil hq

/-- Witness for C8 (amended): doubling the detectable effect from 2% to 4% at
a 10% baseline does not increase the required sample size. -/
theorem calculateRequiredSampleSize_mono_witness :
    JsNum.leb (calculateRequiredSampleSize 10 4 0.8 0.95)
      (calculateRequiredSampleSize 10 2 0.8 0.95) = true :=
  calculateRequiredSampleSize_mono 10 2 4 0.8 0.95 (by norm_num) (by norm_num)
    (by norm_num) (by norm_num)

end LaunchTest
